import Mathlib

/-!
Verification of the constraint-checking engine of the agentic-tdd repository
(`orchestrator/constraint_checks.py`, `orchestrator/constraint_loader.py`,
`orchestrator/models.py`) against its natural-language specification.

The engine analyzes Python source code, so the embedding carries a Python
abstract syntax tree.  The tree type below covers exactly the node taxonomy
that the checkers inspect (`ast.FunctionDef`, `ast.For`, `ast.Call`, ...).
`ast.walk` enumerates a node and all of its descendants; the Python original
uses a breadth-first queue, while `Py.walk` below produces the same multiset
of nodes in depth-first preorder.  Every property proved here depends only on
which nodes occur in the enumeration (membership, counts, emptiness, maxima),
never on the enumeration order, so the two are interchangeable for these
claims.

A source text is represented by its line count together with the result of
`ast.parse`: either a parse error message (a `SyntaxError`) or the parsed
tree.  In the Python original every checker calls `ast.parse` on the same
text, always with the same outcome; the `parsed` field captures that shared
outcome once.
-/

namespace AgenticTDD

/-- Constant literals (`ast.Constant.value`).  Python compares constants by
value (`key.value in seen`); structural equality on this type models that
comparison for the constant shapes carried here. -/
inductive PyConst where
  | intC (n : Int)
  | strC (s : String)
  | boolC (b : Bool)
  | noneC
deriving DecidableEq, BEq

/-- Expression context (`ast.Load` / `ast.Store` / `ast.Del`). -/
inductive PyCtx where
  | load
  | store
  | del
deriving DecidableEq, BEq

/-- An `ast.alias` entry of an import statement (`name`, `asname`). -/
structure PyAlias where
  name : String
  asname : Option String
deriving DecidableEq

mutual
/-- The Python AST node kinds that `constraint_checks.py` inspects.  Field
names and order follow the CPython `ast` node `_fields`.  `arguments`,
`arg`, `keyword` and `withitem` helper nodes are carried as the structured
types below; their expression-valued payloads (defaults, annotations,
context expressions) are surfaced by `Py.children` so that `Py.walk`
reaches the same expression nodes `ast.walk` reaches. -/
inductive Py where
  | Module (body : List Py)
  | FunctionDef (name : String) (args : PyArguments) (body : List Py)
      (decoratorList : List Py) (returns : Option Py) (lineno endLineno : Nat)
  | AsyncFunctionDef (name : String) (args : PyArguments) (body : List Py)
      (decoratorList : List Py) (returns : Option Py) (lineno endLineno : Nat)
  | ClassDef (name : String) (bases : List Py) (body : List Py)
      (decoratorList : List Py) (lineno : Nat)
  | Return (value : Option Py) (lineno : Nat)
  | Assign (targets : List Py) (value : Py) (lineno : Nat)
  | For (target : Py) (iter : Py) (body : List Py) (orelse : List Py) (lineno : Nat)
  | While (test : Py) (body : List Py) (orelse : List Py) (lineno : Nat)
  | If (test : Py) (body : List Py) (orelse : List Py) (lineno : Nat)
  | With (items : List PyWithItem) (body : List Py) (lineno : Nat)
  | Try (body : List Py) (handlers : List Py) (orelse : List Py)
      (finalbody : List Py) (lineno : Nat)
  | ExceptHandler (type : Option Py) (name : Option String) (body : List Py) (lineno : Nat)
  | Raise (exc : Option Py) (lineno : Nat)
  | Import (names : List PyAlias) (lineno : Nat)
  | ImportFrom (module : Option String) (names : List PyAlias) (lineno : Nat)
  | ExprStmt (value : Py) (lineno : Nat)
  | Pass (lineno : Nat)
  | Break (lineno : Nat)
  | Continue (lineno : Nat)
  | BoolOp (values : List Py) (lineno : Nat)
  | Lambda (args : PyArguments) (body : Py) (lineno : Nat)
  | IfExp (test : Py) (body : Py) (orelse : Py) (lineno : Nat)
  | DictLit (keys : List (Option Py)) (values : List Py) (lineno : Nat)
  | SetLit (elts : List Py) (lineno : Nat)
  | ListLit (elts : List Py) (lineno : Nat)
  | TupleLit (elts : List Py) (lineno : Nat)
  | Call (func : Py) (args : List Py) (keywords : List PyKeyword) (lineno : Nat)
  | Constant (value : PyConst) (lineno : Nat)
  | Attribute (value : Py) (attr : String) (lineno : Nat)
  | Name (id : String) (ctx : PyCtx) (lineno : Nat)

/-- The `ast.arguments` node: positional args, `*args`, keyword-only args
with their defaults, `**kwargs`, and positional defaults (aligned with the
tail of `args`).  `posonlyargs` is omitted: no checker consults it. -/
inductive PyArguments where
  | mk (args : List PyArg) (vararg : Option PyArg) (kwonlyargs : List PyArg)
      (kwDefaults : List (Option Py)) (kwarg : Option PyArg) (defaults : List Py)

/-- The `ast.arg` node: parameter name and optional type annotation. -/
inductive PyArg where
  | mk (arg : String) (ann : Option Py)

/-- The `ast.keyword` node of a call: `arg` is `none` for `**kwargs`. -/
inductive PyKeyword where
  | mk (arg : Option String) (value : Py)

/-- The `ast.withitem` node: context expression and optional `as` target. -/
inductive PyWithItem where
  | mk (contextExpr : Py) (optionalVars : Option Py)
end

/-- Positional parameter list of an `arguments` node. -/
def PyArguments.args : PyArguments → List PyArg
  | .mk a _ _ _ _ _ => a

/-- The `vararg` (`*args`) entry of an `arguments` node. -/
def PyArguments.vararg : PyArguments → Option PyArg
  | .mk _ v _ _ _ _ => v

/-- Keyword-only parameter list of an `arguments` node. -/
def PyArguments.kwonlyargs : PyArguments → List PyArg
  | .mk _ _ k _ _ _ => k

/-- Keyword-only defaults of an `arguments` node (entries may be `None`). -/
def PyArguments.kwDefaults : PyArguments → List (Option Py)
  | .mk _ _ _ d _ _ => d

/-- The `kwarg` (`**kwargs`) entry of an `arguments` node. -/
def PyArguments.kwarg : PyArguments → Option PyArg
  | .mk _ _ _ _ k _ => k

/-- Positional defaults of an `arguments` node. -/
def PyArguments.defaults : PyArguments → List Py
  | .mk _ _ _ _ _ d => d

/-- Parameter name of an `arg` node. -/
def PyArg.arg : PyArg → String
  | .mk a _ => a

/-- Type annotation of an `arg` node, when present. -/
def PyArg.annot : PyArg → Option Py
  | .mk _ a => a

/-- Keyword name of a call keyword, `none` for `**kwargs`. -/
def PyKeyword.arg : PyKeyword → Option String
  | .mk a _ => a

/-- Value expression of a call keyword. -/
def PyKeyword.value : PyKeyword → Py
  | .mk _ v => v

/-- Context expression of a `withitem`. -/
def PyWithItem.contextExpr : PyWithItem → Py
  | .mk c _ => c

/-- Optional `as` target of a `withitem`. -/
def PyWithItem.optionalVars : PyWithItem → Option Py
  | .mk _ v => v

/-- The expression nodes reachable from an `arguments` node: annotations of
every parameter, keyword-only defaults, and positional defaults.  These are
the nodes `ast.walk` reaches through the `arguments` and `arg` helper
nodes, in `_fields` order. -/
def PyArguments.childExprs (a : PyArguments) : List Py :=
  (a.args.filterMap PyArg.annot)
    ++ ((a.vararg.bind PyArg.annot).toList)
    ++ (a.kwonlyargs.filterMap PyArg.annot)
    ++ (a.kwDefaults.filterMap id)
    ++ ((a.kwarg.bind PyArg.annot).toList)
    ++ a.defaults

/-- Direct AST-valued children of a node, mirroring `ast.iter_child_nodes`
(the node's `_fields`, in order, keeping only AST-node values).  The helper
nodes `arguments`/`arg`/`keyword`/`withitem` are flattened to the expression
nodes inside them; `alias` nodes carry no expressions. -/
def Py.children : Py → List Py
  | .Module body => body
  | .FunctionDef _ args body dec ret _ _ => args.childExprs ++ body ++ dec ++ ret.toList
  | .AsyncFunctionDef _ args body dec ret _ _ => args.childExprs ++ body ++ dec ++ ret.toList
  | .ClassDef _ bases body dec _ => bases ++ body ++ dec
  | .Return v _ => v.toList
  | .Assign targets value _ => targets ++ [value]
  | .For target iter body orelse _ => target :: iter :: (body ++ orelse)
  | .While test body orelse _ => test :: (body ++ orelse)
  | .If test body orelse _ => test :: (body ++ orelse)
  | .With items body _ =>
      (items.flatMap fun it => it.contextExpr :: it.optionalVars.toList) ++ body
  | .Try body handlers orelse finalbody _ => body ++ handlers ++ orelse ++ finalbody
  | .ExceptHandler ty _ body _ => ty.toList ++ body
  | .Raise exc _ => exc.toList
  | .Import _ _ => []
  | .ImportFrom _ _ _ => []
  | .ExprStmt v _ => [v]
  | .Pass _ => []
  | .Break _ => []
  | .Continue _ => []
  | .BoolOp values _ => values
  | .Lambda args body _ => args.childExprs ++ [body]
  | .IfExp test body orelse _ => [test, body, orelse]
  | .DictLit keys values _ => keys.filterMap id ++ values
  | .SetLit elts _ => elts
  | .ListLit elts _ => elts
  | .TupleLit elts _ => elts
  | .Call func args keywords _ => func :: (args ++ keywords.map PyKeyword.value)
  | .Constant _ _ => []
  | .Attribute v _ _ => [v]
  | .Name _ _ _ => []

/-- Every expression surfaced from an `arguments` node is strictly smaller
than the node, which justifies recursion through `Py.children`. -/
lemma PyArguments.sizeOf_childExprs_lt (a : PyArguments) (c : Py)
    (h : c ∈ a.childExprs) : sizeOf c < sizeOf a := by
  obtain ⟨args, vararg, kwonly, kwD, kwarg, defaults⟩ := a
  simp only [PyArguments.childExprs, PyArguments.args, PyArguments.vararg,
    PyArguments.kwonlyargs, PyArguments.kwDefaults, PyArguments.kwarg,
    PyArguments.defaults, List.mem_append, List.mem_filterMap,
    Option.mem_toList, Option.mem_def, Option.bind_eq_some, id, or_assoc] at h
  rcases h with ⟨x, hx, hann⟩ | ⟨x, hx, hann⟩ | ⟨x, hx, hann⟩ | ⟨x, hx, hid⟩ |
      ⟨x, hx, hann⟩ | hmem
  · obtain ⟨s, annO⟩ := x
    simp only [PyArg.annot] at hann
    subst hann
    have hs := List.sizeOf_lt_of_mem hx
    simp only [PyArg.mk.sizeOf_spec, Option.some.sizeOf_spec] at hs
    simp only [PyArguments.mk.sizeOf_spec]
    omega
  · obtain ⟨s, annO⟩ := x
    simp only [PyArg.annot] at hann
    subst hann
    have hs : sizeOf vararg = 1 + sizeOf (PyArg.mk s (some c)) := by rw [hx]; rfl
    simp only [PyArg.mk.sizeOf_spec, Option.some.sizeOf_spec] at hs
    simp only [PyArguments.mk.sizeOf_spec]
    omega
  · obtain ⟨s, annO⟩ := x
    simp only [PyArg.annot] at hann
    subst hann
    have hs := List.sizeOf_lt_of_mem hx
    simp only [PyArg.mk.sizeOf_spec, Option.some.sizeOf_spec] at hs
    simp only [PyArguments.mk.sizeOf_spec]
    omega
  · subst hid
    have hs := List.sizeOf_lt_of_mem hx
    simp only [Option.some.sizeOf_spec] at hs
    simp only [PyArguments.mk.sizeOf_spec]
    omega
  · obtain ⟨s, annO⟩ := x
    simp only [PyArg.annot] at hann
    subst hann
    have hs : sizeOf kwarg = 1 + sizeOf (PyArg.mk s (some c)) := by rw [hx]; rfl
    simp only [PyArg.mk.sizeOf_spec, Option.some.sizeOf_spec] at hs
    simp only [PyArguments.mk.sizeOf_spec]
    omega
  · have hs := List.sizeOf_lt_of_mem hmem
    simp only [PyArguments.mk.sizeOf_spec]
    omega

/-- Every direct child of a node is strictly smaller than the node; this is
the termination argument for every recursion through `Py.children`. -/
lemma Py.sizeOf_mem_children {c n : Py} (h : c ∈ n.children) : sizeOf c < sizeOf n := by
  cases n <;>
    simp only [Py.children, List.mem_append, List.mem_cons, List.mem_singleton,
      List.mem_filterMap, List.mem_map, List.mem_flatMap, Option.mem_toList,
      Option.mem_def, id, List.not_mem_nil, or_false, or_assoc] at h
  case Module body =>
    have := List.sizeOf_lt_of_mem h; simp; omega
  case FunctionDef name args body dec ret l e =>
    rcases h with ha | hb | hd | hr
    · have := PyArguments.sizeOf_childExprs_lt _ _ ha; simp; omega
    · have := List.sizeOf_lt_of_mem hb; simp; omega
    · have := List.sizeOf_lt_of_mem hd; simp; omega
    · have : sizeOf ret = 1 + sizeOf c := by rw [hr]; rfl
      simp; omega
  case AsyncFunctionDef name args body dec ret l e =>
    rcases h with ha | hb | hd | hr
    · have := PyArguments.sizeOf_childExprs_lt _ _ ha; simp; omega
    · have := List.sizeOf_lt_of_mem hb; simp; omega
    · have := List.sizeOf_lt_of_mem hd; simp; omega
    · have : sizeOf ret = 1 + sizeOf c := by rw [hr]; rfl
      simp; omega
  case ClassDef name bases body dec l =>
    rcases h with ha | hb | hd
    · have := List.sizeOf_lt_of_mem ha; simp; omega
    · have := List.sizeOf_lt_of_mem hb; simp; omega
    · have := List.sizeOf_lt_of_mem hd; simp; omega
  case Return v l =>
    have : sizeOf v = 1 + sizeOf c := by rw [h]; rfl
    simp; omega
  case Assign targets value l =>
    rcases h with ht | rfl
    · have := List.sizeOf_lt_of_mem ht; simp; omega
    · simp; omega
  case For target iter body orelse l =>
    rcases h with rfl | rfl | hb | ho
    · simp; omega
    · simp; omega
    · have := List.sizeOf_lt_of_mem hb; simp; omega
    · have := List.sizeOf_lt_of_mem ho; simp; omega
  case While test body orelse l =>
    rcases h with rfl | hb | ho
    · simp; omega
    · have := List.sizeOf_lt_of_mem hb; simp; omega
    · have := List.sizeOf_lt_of_mem ho; simp; omega
  case If test body orelse l =>
    rcases h with rfl | hb | ho
    · simp; omega
    · have := List.sizeOf_lt_of_mem hb; simp; omega
    · have := List.sizeOf_lt_of_mem ho; simp; omega
  case With items body l =>
    rcases h with ⟨it, hit, hc⟩ | hb
    · have hi := List.sizeOf_lt_of_mem hit
      obtain ⟨ce, ov⟩ := it
      simp only [PyWithItem.contextExpr, PyWithItem.optionalVars] at hc
      rcases hc with rfl | hv
      · simp only [PyWithItem.mk.sizeOf_spec] at hi; simp; omega
      · have : sizeOf ov = 1 + sizeOf c := by rw [hv]; rfl
        simp only [PyWithItem.mk.sizeOf_spec] at hi; simp; omega
    · have := List.sizeOf_lt_of_mem hb; simp; omega
  case Try body handlers orelse finalbody l =>
    rcases h with hb | hh | ho | hf
    · have := List.sizeOf_lt_of_mem hb; simp; omega
    · have := List.sizeOf_lt_of_mem hh; simp; omega
    · have := List.sizeOf_lt_of_mem ho; simp; omega
    · have := List.sizeOf_lt_of_mem hf; simp; omega
  case ExceptHandler ty name body l =>
    rcases h with ht | hb
    · have : sizeOf ty = 1 + sizeOf c := by rw [ht]; rfl
      simp; omega
    · have := List.sizeOf_lt_of_mem hb; simp; omega
  case Raise exc l =>
    have : sizeOf exc = 1 + sizeOf c := by rw [h]; rfl
    simp; omega
  case ExprStmt v l =>
    subst h; simp; omega
  case BoolOp values l =>
    have := List.sizeOf_lt_of_mem h; simp; omega
  case Lambda args body l =>
    rcases h with ha | rfl
    · have := PyArguments.sizeOf_childExprs_lt _ _ ha; simp; omega
    · simp; omega
  case IfExp test body orelse l =>
    rcases h with rfl | rfl | rfl
    · simp; omega
    · simp; omega
    · simp; omega
  case DictLit keys values l =>
    rcases h with ⟨x, hx, rfl⟩ | hv
    · have := List.sizeOf_lt_of_mem hx
      simp only [Option.some.sizeOf_spec] at this; simp; omega
    · have := List.sizeOf_lt_of_mem hv; simp; omega
  case SetLit elts l =>
    have := List.sizeOf_lt_of_mem h; simp; omega
  case ListLit elts l =>
    have := List.sizeOf_lt_of_mem h; simp; omega
  case TupleLit elts l =>
    have := List.sizeOf_lt_of_mem h; simp; omega
  case Call func args keywords l =>
    rcases h with rfl | ha | ⟨k, hk, hval⟩
    · simp; omega
    · have := List.sizeOf_lt_of_mem ha; simp; omega
    · have hks := List.sizeOf_lt_of_mem hk
      obtain ⟨karg, kval⟩ := k
      simp only [PyKeyword.value] at hval
      subst hval
      simp only [PyKeyword.mk.sizeOf_spec] at hks; simp; omega
  case Attribute v attr l =>
    subst h; simp; omega

/-- The node together with all of its descendants.  `ast.walk` produces the
same nodes breadth-first; this enumeration is depth-first preorder, and all
properties proved below are order-insensitive (see the file comment). -/
def Py.walk (n : Py) : List Py :=
  n :: n.children.attach.flatMap fun c => Py.walk c.1
termination_by sizeOf n
decreasing_by exact Py.sizeOf_mem_children c.2

/-- Unfolding equation for `Py.walk` without the `attach` scaffolding. -/
lemma Py.walk_eq (n : Py) : n.walk = n :: n.children.flatMap Py.walk := by
  rw [Py.walk]
  simp

/-- A node is the head of its own walk. -/
lemma Py.self_mem_walk (n : Py) : n ∈ n.walk := by
  rw [Py.walk_eq]; exact List.mem_cons_self _ _

/-- Walk membership is transitive through children. -/
lemma Py.mem_walk_of_mem_children {m c n : Py} (hc : c ∈ n.children)
    (hm : m ∈ c.walk) : m ∈ n.walk := by
  rw [Py.walk_eq]
  exact List.mem_cons_of_mem _ (List.mem_flatMap.mpr ⟨c, hc, hm⟩)

/-! Basic node predicates and accessors shared by the checkers. -/

/-- The `lineno` attribute of a node. -/
def Py.lineno : Py → Nat
  | .Module _ => 0
  | .FunctionDef _ _ _ _ _ l _ => l
  | .AsyncFunctionDef _ _ _ _ _ l _ => l
  | .ClassDef _ _ _ _ l => l
  | .Return _ l => l
  | .Assign _ _ l => l
  | .For _ _ _ _ l => l
  | .While _ _ _ l => l
  | .If _ _ _ l => l
  | .With _ _ l => l
  | .Try _ _ _ _ l => l
  | .ExceptHandler _ _ _ l => l
  | .Raise _ l => l
  | .Import _ l => l
  | .ImportFrom _ _ l => l
  | .ExprStmt _ l => l
  | .Pass l => l
  | .Break l => l
  | .Continue l => l
  | .BoolOp _ l => l
  | .Lambda _ _ l => l
  | .IfExp _ _ _ l => l
  | .DictLit _ _ l => l
  | .SetLit _ l => l
  | .ListLit _ l => l
  | .TupleLit _ l => l
  | .Call _ _ _ l => l
  | .Constant _ l => l
  | .Attribute _ _ l => l
  | .Name _ _ l => l

/-- The test `isinstance(node, (ast.FunctionDef, ast.AsyncFunctionDef))`. -/
def Py.isFuncDef : Py → Bool
  | .FunctionDef _ _ _ _ _ _ _ => true
  | .AsyncFunctionDef _ _ _ _ _ _ _ => true
  | _ => false

/-- The statement list of the module node (`tree.body`); non-module nodes,
which never arise from parsing a source file, yield the empty list. -/
def Py.moduleBody : Py → List Py
  | .Module body => body
  | _ => []

/-- Python's substring test `needle in hay` on strings. -/
def strContains (hay needle : String) : Bool :=
  (List.range (hay.length + 1)).any fun i => needle.data.isPrefixOf (hay.data.drop i)

/-! Metric extractors, translated from `constraint_checks.py`. -/

/-- The function blocks of `radon.complexity.cc_visit` with their cyclomatic
complexities.  Modelled from the spec: radon is an external library; §4.1
specifies per-function "standard decision-point counting (if/elif, for,
while, boolean operators, except handlers, comprehension conditions each add
one)" starting from 1, with one block per function definition.  The decision
points of a function are counted over its full subtree (`ast.walk`); the
embedded language has no comprehension nodes, so no comprehension conditions
arise. -/
def ccVisitComplexities (tree : Py) : List Nat :=
  (tree.walk.filter Py.isFuncDef).map fun f =>
    1 + (f.walk.map fun n =>
      match n with
      | .If _ _ _ _ => 1
      | .For _ _ _ _ _ => 1
      | .While _ _ _ _ => 1
      | .IfExp _ _ _ _ => 1
      | .ExceptHandler _ _ _ _ => 1
      | .BoolOp values _ => values.length - 1
      | _ => 0).sum

/-- Source `_max_cyclomatic_complexity`: the maximum block complexity, or 1
when there are no blocks. -/
def maxCyclomaticComplexity (tree : Py) : Nat :=
  let blocks := ccVisitComplexities tree
  if blocks.isEmpty then 1 else blocks.foldl max 0

/-- Source `_max_function_lines`: the maximum of
`end_lineno - lineno + 1` over function definitions found by `ast.walk`. -/
def maxFunctionLines (tree : Py) : Nat :=
  tree.walk.foldl (fun acc n =>
    match n with
    | .FunctionDef _ _ _ _ _ l e => max acc (e - l + 1)
    | .AsyncFunctionDef _ _ _ _ _ l e => max acc (e - l + 1)
    | _ => acc) 0

/-- The docstring of a definition body: the first statement when it is a
string-literal expression (`ast.get_docstring` shape used by
`_get_docstring_issue`). -/
def docstringOf : List Py → Option String
  | (.ExprStmt (.Constant (.strC s) _) _) :: _ => some s
  | _ => none

/-- Source `_has_return_value`: whether `ast.walk(node)` contains a
`return` statement with a value.  `ast.walk` descends into nested function
definitions, so their returns count as well. -/
def Py.hasReturnValue (n : Py) : Bool :=
  n.walk.any fun c =>
    match c with
    | .Return (some _) _ => true
    | _ => false

/-- Source `_get_docstring_issue`, for the three node kinds it is called on
(functions, async functions, classes); other nodes yield no issue. -/
def getDocstringIssue (node : Py) : Option String :=
  match node with
  | .ClassDef name _ body _ _ =>
      match docstringOf body with
      | some _ => none
      | none => some ("Missing docstring: " ++ name)
  | .FunctionDef name args body _ _ _ _ =>
      match docstringOf body with
      | none => some ("Missing docstring: " ++ name)
      | some d =>
          let params := args.args.filter fun a => a.arg != "self" && a.arg != "cls"
          let needsArgs := params.length > 0
          let needsReturns := node.hasReturnValue
          if needsArgs && !strContains d "Args:" then
            some (name ++ ": missing Args section in docstring")
          else if needsReturns && !strContains d "Returns:" then
            some (name ++ ": missing Returns section in docstring")
          else none
  | .AsyncFunctionDef name args body _ _ _ _ =>
      match docstringOf body with
      | none => some ("Missing docstring: " ++ name)
      | some d =>
          let params := args.args.filter fun a => a.arg != "self" && a.arg != "cls"
          let needsArgs := params.length > 0
          let needsReturns := node.hasReturnValue
          if needsArgs && !strContains d "Args:" then
            some (name ++ ": missing Args section in docstring")
          else if needsReturns && !strContains d "Returns:" then
            some (name ++ ": missing Returns section in docstring")
          else none
  | _ => none

/-- The test `isinstance(node, (FunctionDef, AsyncFunctionDef, ClassDef))`. -/
def Py.isDefOrClass : Py → Bool
  | .FunctionDef _ _ _ _ _ _ _ => true
  | .AsyncFunctionDef _ _ _ _ _ _ _ => true
  | .ClassDef _ _ _ _ _ => true
  | _ => false

/-- Source `_check_docstrings`: collect the docstring issue of every
function/async-function/class found by `ast.walk`. -/
def checkDocstrings (tree : Py) : List String :=
  tree.walk.filterMap fun n =>
    if n.isDefOrClass then getDocstringIssue n else none

/-- Source `_check_imports`: names imported by `import`/`from ... import`
statements that are not in the allowed list. -/
def checkImports (tree : Py) (allowed : List String) : List String :=
  tree.walk.flatMap fun n =>
    match n with
    | .Import names _ =>
        (names.filter fun a => !allowed.contains a.name).map PyAlias.name
    | .ImportFrom (some m) _ _ => if allowed.contains m then [] else [m]
    | _ => []

/-- Source `_COMPLEXITY_ORDER` (insertion-ordered dict as an association
list). -/
def COMPLEXITY_ORDER : List (String × Nat) :=
  [("O(1)", 0), ("O(log n)", 1), ("O(n)", 2), ("O(n log n)", 3),
   ("O(n^2)", 4), ("O(n^3)", 5), ("O(2^n)", 6)]

/-- Source `_NESTING_TO_COMPLEXITY`. -/
def NESTING_TO_COMPLEXITY : List (Nat × String) :=
  [(0, "O(1)"), (1, "O(n)"), (2, "O(n^2)"), (3, "O(n^3)")]

/-- Source `_complexity_rank`: dict lookup with default
`len(_COMPLEXITY_ORDER)`. -/
def complexityRank (c : String) : Nat :=
  (COMPLEXITY_ORDER.lookup c).getD COMPLEXITY_ORDER.length

/-- The test `isinstance(child, (ast.For, ast.While))`. -/
def Py.isLoopNode : Py → Bool
  | .For _ _ _ _ _ => true
  | .While _ _ _ _ => true
  | _ => false

/-- Source `_max_loop_depth`: recursive loop-nesting depth over
`iter_child_nodes`. -/
def Py.maxLoopDepth (n : Py) (current : Nat) : Nat :=
  (n.children.attach.map fun c =>
    if c.1.isLoopNode then Py.maxLoopDepth c.1 (current + 1)
    else Py.maxLoopDepth c.1 current).foldl max current
termination_by sizeOf n
decreasing_by all_goals exact Py.sizeOf_mem_children c.2

/-- Unfolding equation for `Py.maxLoopDepth` without `attach`. -/
lemma Py.maxLoopDepth_eq (n : Py) (current : Nat) :
    n.maxLoopDepth current =
      (n.children.map fun c =>
        if c.isLoopNode then c.maxLoopDepth (current + 1)
        else c.maxLoopDepth current).foldl max current := by
  rw [Py.maxLoopDepth]
  simp

/-- Source `_estimate_time_complexity`: map the maximum per-function loop
depth to a Big-O class string. -/
def estimateTimeComplexity (tree : Py) : String :=
  let maxDepth := (tree.walk.filter Py.isFuncDef).foldl
    (fun acc f => max acc (f.maxLoopDepth 0)) 0
  ((NESTING_TO_COMPLEXITY.lookup maxDepth).getD
    ("O(n^" ++ toString maxDepth ++ ")"))

/-- Source `_max_parameters`: maximum positional-parameter count over
functions, excluding parameters named `self`/`cls`. -/
def maxParameters (tree : Py) : Nat :=
  tree.walk.foldl (fun acc n =>
    match n with
    | .FunctionDef _ args _ _ _ _ _ =>
        max acc ((args.args.filter fun a => a.arg != "self" && a.arg != "cls").length)
    | .AsyncFunctionDef _ args _ _ _ _ _ =>
        max acc ((args.args.filter fun a => a.arg != "self" && a.arg != "cls").length)
    | _ => acc) 0

/-- The control-flow node test of `_walk_nesting`
(`ast.If, ast.For, ast.While, ast.Try, ast.With`). -/
def Py.isNestingNode : Py → Bool
  | .If _ _ _ _ => true
  | .For _ _ _ _ _ => true
  | .While _ _ _ _ => true
  | .Try _ _ _ _ _ => true
  | .With _ _ _ => true
  | _ => false

/-- Source `_walk_nesting`: recursive control-flow nesting depth over
`iter_child_nodes`. -/
def Py.walkNesting (n : Py) (current : Nat) : Nat :=
  (n.children.attach.map fun c =>
    if c.1.isNestingNode then Py.walkNesting c.1 (current + 1)
    else Py.walkNesting c.1 current).foldl max current
termination_by sizeOf n
decreasing_by all_goals exact Py.sizeOf_mem_children c.2

/-- Unfolding equation for `Py.walkNesting` without `attach`. -/
lemma Py.walkNesting_eq (n : Py) (current : Nat) :
    n.walkNesting current =
      (n.children.map fun c =>
        if c.isNestingNode then c.walkNesting (current + 1)
        else c.walkNesting current).foldl max current := by
  rw [Py.walkNesting]
  simp

/-- Source `_max_nesting_depth`: maximum `_walk_nesting` over functions. -/
def maxNestingDepth (tree : Py) : Nat :=
  (tree.walk.filter Py.isFuncDef).foldl (fun acc f => max acc (f.walkNesting 0)) 0

/-- The test `isinstance(child, ast.Return)` (with or without a value). -/
def Py.isReturn : Py → Bool
  | .Return _ _ => true
  | _ => false

/-- Source `_max_return_statements`: for each function found by `ast.walk`,
count the `Return` nodes in the function's own `ast.walk` (which descends
into nested function definitions), and take the maximum. -/
def maxReturnStatements (tree : Py) : Nat :=
  (tree.walk.filter Py.isFuncDef).foldl
    (fun acc f => max acc (f.walk.countP Py.isReturn)) 0

/-- Source `_find_print_calls`: line numbers of calls whose function is the
bare name `print`. -/
def findPrintCalls (tree : Py) : List Nat :=
  tree.walk.filterMap fun n =>
    match n with
    | .Call (.Name "print" _ _) _ _ l => some l
    | _ => none

/-- Source `_find_star_imports`: for each `from m import *` alias, the
module name (empty string when the module is `None`). -/
def findStarImports (tree : Py) : List String :=
  tree.walk.flatMap fun n =>
    match n with
    | .ImportFrom m names _ =>
        (names.filter fun a => a.name == "*").map fun _ => m.getD ""
    | _ => []

/-- The test `isinstance(default, (ast.List, ast.Dict, ast.Set))` applied to
an optional default expression (`kw_defaults` entries may be `None`). -/
def isMutableLiteral : Option Py → Bool
  | some (.ListLit _ _) => true
  | some (.DictLit _ _ _) => true
  | some (.SetLit _ _) => true
  | _ => false

/-- Source `_find_mutable_defaults`: names of functions having a mutable
literal among `args.defaults + args.kw_defaults`. -/
def findMutableDefaults (tree : Py) : List String :=
  tree.walk.flatMap fun n =>
    match n with
    | .FunctionDef name args _ _ _ _ _ =>
        if (args.defaults.map some ++ args.kwDefaults).any isMutableLiteral
        then [name] else []
    | .AsyncFunctionDef name args _ _ _ _ _ =>
        if (args.defaults.map some ++ args.kwDefaults).any isMutableLiteral
        then [name] else []
    | _ => []

/-- Source `_find_global_state`: module-level `Assign` targets that are
simple names not written entirely in upper case. -/
def findGlobalState (tree : Py) : List String :=
  tree.moduleBody.flatMap fun n =>
    match n with
    | .Assign targets _ _ =>
        targets.flatMap fun t =>
          match t with
          | .Name i _ _ => if i != i.toUpper then [i] else []
          | _ => []
    | _ => []

/-- Source `_find_bare_excepts`: line numbers of `except:` handlers with no
exception type. -/
def findBareExcepts (tree : Py) : List Nat :=
  tree.walk.filterMap fun n =>
    match n with
    | .ExceptHandler none _ _ l => some l
    | _ => none

/-- Source `_find_try_except_pass`: line numbers of handlers whose body is
exactly one `pass` statement. -/
def findTryExceptPass (tree : Py) : List Nat :=
  tree.walk.filterMap fun n =>
    match n with
    | .ExceptHandler _ _ [.Pass _] l => some l
    | _ => none

/-- Source `_walk_skip_functions`: the node and its descendants, never
descending into nested function definitions. -/
def Py.walkSkipFunctions (n : Py) : List Py :=
  n :: n.children.attach.flatMap fun c =>
    if c.1.isFuncDef then [] else Py.walkSkipFunctions c.1
termination_by sizeOf n
decreasing_by all_goals exact Py.sizeOf_mem_children c.2

/-- Unfolding equation for `Py.walkSkipFunctions` without `attach`. -/
lemma Py.walkSkipFunctions_eq (n : Py) :
    n.walkSkipFunctions =
      n :: n.children.flatMap fun c =>
        if c.isFuncDef then [] else c.walkSkipFunctions := by
  rw [Py.walkSkipFunctions]
  simp

/-- The test `isinstance(child, (ast.Return, ast.Break, ast.Continue))`. -/
def Py.isJump : Py → Bool
  | .Return _ _ => true
  | .Break _ => true
  | .Continue _ => true
  | _ => false

/-- Source `_find_return_in_finally`: line numbers of jump statements found
in `finally` blocks by the function-skipping walk. -/
def findReturnInFinally (tree : Py) : List Nat :=
  tree.walk.flatMap fun n =>
    match n with
    | .Try _ _ _ finalbody _ =>
        finalbody.flatMap fun stmt =>
          stmt.walkSkipFunctions.filterMap fun c =>
            if c.isJump then some c.lineno else none
    | _ => []

/-- The terminal-statement test of `_find_unreachable_code`
(`ast.Return, ast.Raise, ast.Break, ast.Continue`). -/
def Py.isTerminal : Py → Bool
  | .Return _ _ => true
  | .Raise _ _ => true
  | .Break _ => true
  | .Continue _ => true
  | _ => false

/-- The statement lists a node holds under its `body`, `orelse` and
`finalbody` attributes, in that order — the `getattr` loop of
`_find_unreachable_code`.  `Lambda.body` is a single expression, not a
list, so it is skipped exactly as `isinstance(stmts, list)` skips it. -/
def Py.stmtBlocks : Py → List (List Py)
  | .Module body => [body]
  | .FunctionDef _ _ body _ _ _ _ => [body]
  | .AsyncFunctionDef _ _ body _ _ _ _ => [body]
  | .ClassDef _ _ body _ _ => [body]
  | .For _ _ body orelse _ => [body, orelse]
  | .While _ body orelse _ => [body, orelse]
  | .If _ body orelse _ => [body, orelse]
  | .With _ body _ => [body]
  | .Try body _ orelse finalbody _ => [body, orelse, finalbody]
  | .ExceptHandler _ _ body _ => [body]
  | _ => []

/-- For one statement list: the line of the statement following each
terminal statement that is not last (`for i, stmt in enumerate(stmts)`). -/
def unreachableIn : List Py → List Nat
  | [] => []
  | [_] => []
  | s1 :: s2 :: rest =>
      (if s1.isTerminal then [s2.lineno] else []) ++ unreachableIn (s2 :: rest)

/-- Source `_find_unreachable_code`: apply `unreachableIn` to every
statement block of every walked node. -/
def findUnreachableCode (tree : Py) : List Nat :=
  tree.walk.flatMap fun n => n.stmtBlocks.flatMap unreachableIn

/-- The duplicate-key scan of one dict literal: constant keys already seen
are reported at their line; non-constant keys are ignored entirely. -/
def dupKeysIn : List (Option Py) → List PyConst → List Nat
  | [], _ => []
  | none :: rest, seen => dupKeysIn rest seen
  | some (.Constant v l) :: rest, seen =>
      if seen.contains v then l :: dupKeysIn rest seen
      else dupKeysIn rest (v :: seen)
  | some _ :: rest, seen => dupKeysIn rest seen

/-- Source `_find_duplicate_dict_keys`. -/
def findDuplicateDictKeys (tree : Py) : List Nat :=
  tree.walk.flatMap fun n =>
    match n with
    | .DictLit keys _ _ => dupKeysIn keys []
    | _ => []

/-- Source `_extract_target_names`: names bound by an assignment target,
through tuple/list unpacking. -/
def extractTargetNames : Py → List String
  | .Name i _ _ => [i]
  | .TupleLit elts _ => elts.attach.flatMap fun e => extractTargetNames e.1
  | .ListLit elts _ => elts.attach.flatMap fun e => extractTargetNames e.1
  | _ => []
termination_by t => sizeOf t
decreasing_by
  all_goals
    have hs := List.sizeOf_lt_of_mem e.2
    simp
    omega

/-- Source `_get_default_names`: the parameter names that carry a default —
`args.args[n_args - n_defaults + i]` for each default, i.e. the last
`len(defaults)` positional parameter names.  (In any tree produced by the
parser `len(defaults) <= len(args)`.) -/
def getDefaultNames (n : Py) : List String :=
  match n with
  | .Lambda a _ _ => (a.args.map PyArg.arg).drop (a.args.length - a.defaults.length)
  | .FunctionDef _ a _ _ _ _ _ =>
      (a.args.map PyArg.arg).drop (a.args.length - a.defaults.length)
  | .AsyncFunctionDef _ a _ _ _ _ _ =>
      (a.args.map PyArg.arg).drop (a.args.length - a.defaults.length)
  | _ => []

/-- Source `_closure_uses_loop_var`: a name node anywhere in the closure's
walk (including its defaults, which `ast.walk` reaches through the
`arguments` node) that is a loop variable and not a defaulted parameter. -/
def closureUsesLoopVar (n : Py) (loopVars : List String) : Bool :=
  let defaults := getDefaultNames n
  n.walk.any fun c =>
    match c with
    | .Name i _ _ => loopVars.contains i && !defaults.contains i
    | _ => false

/-- The test `isinstance(child, (ast.Lambda, ast.FunctionDef,
ast.AsyncFunctionDef))`. -/
def Py.isClosure : Py → Bool
  | .Lambda _ _ _ => true
  | .FunctionDef _ _ _ _ _ _ _ => true
  | .AsyncFunctionDef _ _ _ _ _ _ _ => true
  | _ => false

/-- Source `_find_loop_closures`: for each `for` loop, the lines of the
closures among the loop's proper descendants (`child is node` skips exactly
the loop node itself, the head of its walk) that use a loop variable. -/
def findLoopClosures (tree : Py) : List Nat :=
  tree.walk.flatMap fun n =>
    match n with
    | .For target _ _ _ _ =>
        let loopVars := extractTargetNames target
        n.walk.tail.filterMap fun c =>
          if c.isClosure && closureUsesLoopVar c loopVars then some c.lineno
          else none
    | _ => []

/-- Source `_SAFE_CALL_DEFAULTS`. -/
def SAFE_CALL_DEFAULTS : List String :=
  ["frozenset", "tuple", "bytes", "int", "float", "str", "bool", "complex",
   "Field", "field", "dataclass", "property"]

/-- Source `_get_call_name`: the called name of a `Call` node (`Name.id`,
`Attribute.attr`, or the empty string). -/
def getCallName (funcExpr : Py) : String :=
  match funcExpr with
  | .Name i _ _ => i
  | .Attribute _ attr _ => attr
  | _ => ""

/-- Whether one optional default expression is a call to a name outside the
safe whitelist (`None` entries of `kw_defaults` are skipped). -/
def isUnsafeCallDefault : Option Py → Bool
  | some (.Call f _ _ _) => !SAFE_CALL_DEFAULTS.contains (getCallName f)
  | _ => false

/-- Source `_find_call_defaults`: names of functions with a call-shaped
default outside the whitelist. -/
def findCallDefaults (tree : Py) : List String :=
  tree.walk.flatMap fun n =>
    match n with
    | .FunctionDef name args _ _ _ _ _ =>
        if (args.defaults.map some ++ args.kwDefaults).any isUnsafeCallDefault
        then [name] else []
    | .AsyncFunctionDef name args _ _ _ _ _ =>
        if (args.defaults.map some ++ args.kwDefaults).any isUnsafeCallDefault
        then [name] else []
    | _ => []

/-- The Python builtin namespace (`dir(builtins)` minus the dunder and
keyword-constant names excluded in `_BUILTIN_NAMES`).  Modelled from the
spec: §9 directs reimplementations to bake the runtime-introspected table
into a static list of builtin identifier names. -/
def BUILTIN_NAMES : List String :=
  ["ArithmeticError", "AssertionError", "AttributeError", "BaseException",
   "Exception", "IndexError", "KeyError", "LookupError", "NameError",
   "NotImplementedError", "OSError", "RuntimeError", "StopIteration",
   "SyntaxError", "TypeError", "ValueError", "ZeroDivisionError",
   "abs", "aiter", "all", "anext", "any", "ascii", "bin", "bool",
   "breakpoint", "bytearray", "bytes", "callable", "chr", "classmethod",
   "compile", "complex", "copyright", "credits", "delattr", "dict", "dir",
   "divmod", "enumerate", "exit", "filter", "float", "format", "frozenset",
   "getattr", "globals", "hasattr", "hash", "help", "hex", "id", "input",
   "int", "isinstance", "issubclass", "iter", "len", "license", "list",
   "locals", "map", "max", "memoryview", "min", "next", "object", "oct",
   "open", "ord", "pow", "print", "property", "quit", "range", "repr",
   "reversed", "round", "set", "setattr", "slice", "sorted", "staticmethod",
   "str", "sum", "super", "tuple", "type", "vars", "zip"]

/-- Shadowing scan of one `Assign` statement's targets, threading the
de-duplication set; returns the reported names and the updated set. -/
def assignShadows : List Py → List String → List String × List String
  | [], seen => ([], seen)
  | .Name i _ _ :: rest, seen =>
      if BUILTIN_NAMES.contains i && !seen.contains i then
        let (more, seen2) := assignShadows rest (i :: seen)
        (i :: more, seen2)
      else assignShadows rest seen
  | _ :: rest, seen => assignShadows rest seen

/-- Walk-order scan of `_find_shadowed_builtins`, threading the `seen`
set. -/
def shadowScan : List Py → List String → List String
  | [], _ => []
  | n :: rest, seen =>
      match n with
      | .FunctionDef name _ _ _ _ _ _ =>
          if BUILTIN_NAMES.contains name && !seen.contains name then
            name :: shadowScan rest (name :: seen)
          else shadowScan rest seen
      | .AsyncFunctionDef name _ _ _ _ _ _ =>
          if BUILTIN_NAMES.contains name && !seen.contains name then
            name :: shadowScan rest (name :: seen)
          else shadowScan rest seen
      | .Assign targets _ _ =>
          let (found, seen2) := assignShadows targets seen
          found ++ shadowScan rest seen2
      | _ => shadowScan rest seen

/-- Source `_find_shadowed_builtins`: function names and simple assignment
targets that shadow a builtin, first occurrence only. -/
def findShadowedBuiltins (tree : Py) : List String :=
  shadowScan tree.walk []

/-- Source `_is_open_call`. -/
def Py.isOpenCall : Py → Bool
  | .Call (.Name "open" _ _) _ _ _ => true
  | _ => false

/-- Source `_find_open_without_with`: every `open()` call is reported except
the call nodes appearing (by node identity, `id()`) as the context
expression of a `with` item.  Object identity picks out occurrences, so the
translation scans occurrences: a `with` item's context expression itself is
exempt, while everything inside it is still scanned. -/
def openScan (exemptSelf : Bool) (n : Py) : List Nat :=
  match n with
  | .With items body _l =>
      -- a `with` statement is never itself an `open()` call
      (items.attach.flatMap fun it =>
        openScan true it.1.contextExpr ++
          it.1.optionalVars.toList.attach.flatMap fun v => openScan false v.1) ++
        body.attach.flatMap fun s => openScan false s.1
  | m =>
      (if m.isOpenCall && !exemptSelf then [m.lineno] else []) ++
        m.children.attach.flatMap fun c => openScan false c.1
termination_by sizeOf n
decreasing_by
  · obtain ⟨⟨ce, ov⟩, hmem⟩ := it
    have h1 := List.sizeOf_lt_of_mem hmem
    simp only [PyWithItem.mk.sizeOf_spec] at h1
    simp only [PyWithItem.contextExpr]
    simp
    omega
  · obtain ⟨⟨ce, ov⟩, hmem⟩ := it
    obtain ⟨vv, hv⟩ := v
    have h1 := List.sizeOf_lt_of_mem hmem
    simp only [PyWithItem.mk.sizeOf_spec] at h1
    simp only [PyWithItem.optionalVars, Option.mem_toList, Option.mem_def] at hv
    have h3 : sizeOf ov = 1 + sizeOf vv := by rw [hv]; rfl
    simp
    omega
  · have h1 := List.sizeOf_lt_of_mem s.2
    simp
    omega
  · exact Py.sizeOf_mem_children c.2

/-- Entry point of `_find_open_without_with`. -/
def findOpenWithoutWith (tree : Py) : List Nat :=
  openScan false tree

/-- Source `_find_calls_by_name`: line numbers of calls to a given bare
name. -/
def findCallsByName (tree : Py) (name : String) : List Nat :=
  tree.walk.filterMap fun n =>
    match n with
    | .Call (.Name i _ _) _ _ l => if i == name then some l else none
    | _ => none

/-- Source `_UNSAFE_DESER_ATTRS`. -/
def UNSAFE_DESER_ATTRS : List String := ["load", "loads", "Unpickler"]

/-- Source `_UNSAFE_DESER_MODULES`. -/
def UNSAFE_DESER_MODULES : List String := ["pickle", "marshal"]

/-- Source `_find_unsafe_deser`: attribute calls `m.a(...)` with `m` in the
unsafe modules and `a` in the unsafe attributes. -/
def findUnsafeDeser (tree : Py) : List Nat :=
  tree.walk.filterMap fun n =>
    match n with
    | .Call (.Attribute (.Name m _ _) a _) _ _ l =>
        if UNSAFE_DESER_ATTRS.contains a && UNSAFE_DESER_MODULES.contains m
        then some l else none
    | _ => none

/-- Source `_find_unsafe_yaml`: `yaml.load(...)` calls without a `Loader=`
keyword argument. -/
def findUnsafeYaml (tree : Py) : List Nat :=
  tree.walk.filterMap fun n =>
    match n with
    | .Call (.Attribute (.Name "yaml" _ _) "load" _) _ keywords l =>
        if keywords.any fun kw => kw.arg == some "Loader" then none else some l
    | _ => none

/-- Source `_find_shell_true`: calls carrying a literal `shell=True`
keyword. -/
def findShellTrue (tree : Py) : List Nat :=
  tree.walk.filterMap fun n =>
    match n with
    | .Call _ _ keywords l =>
        if keywords.any fun kw =>
            kw.arg == some "shell" &&
              match kw.value with
              | .Constant (.boolC true) _ => true
              | _ => false
        then some l else none
    | _ => none

/-- Source `_SECRET_PATTERNS`. -/
def SECRET_PATTERNS : List String :=
  ["password", "passwd", "secret", "token", "api_key", "apikey",
   "access_key", "secret_key", "private_key"]

/-- Source `_find_hardcoded_secrets`: assignments of string literals to
names whose lowercased form is a secret pattern. -/
def findHardcodedSecrets (tree : Py) : List String :=
  tree.walk.flatMap fun n =>
    match n with
    | .Assign targets value _ =>
        targets.flatMap fun t =>
          match t, value with
          | .Name i _ _, .Constant (.strC _) _ =>
              if SECRET_PATTERNS.contains i.toLower then [i] else []
          | _, _ => []
    | _ => []

/-- Source `_REQUEST_METHODS`. -/
def REQUEST_METHODS : List String :=
  ["get", "post", "put", "delete", "patch", "head", "options"]

/-- Source `_find_requests_no_timeout`: `requests.<verb>(...)` calls missing
a `timeout=` keyword. -/
def findRequestsNoTimeout (tree : Py) : List Nat :=
  tree.walk.filterMap fun n =>
    match n with
    | .Call (.Attribute (.Name "requests" _ _) m _) _ keywords l =>
        if REQUEST_METHODS.contains m then
          if keywords.any fun kw => kw.arg == some "timeout" then none else some l
        else none
    | _ => none

mutual
/-- Source `_cognitive_score` with `_cognitive_for_if`, `_cognitive_for_try`
and `_cognitive_for_node` inlined at their call sites: the score of one
node at a nesting level.  An `if` scores `1 + nesting`, its body at
`nesting + 1`, and its `orelse` through `cognitiveOrelse`; loops score
`1 + nesting` and recurse over their children (target and iterator
included) at `nesting + 1`; boolean operators score a flat `1`; conditional
expressions score `1 + nesting`; `try` scores its handlers at
`1 + nesting` each with handler bodies at `nesting + 1`; `break`/`continue`
score `1`; nested functions and lambdas recurse at `nesting + 1`; every
other node is the sum of its children at the current nesting.  As in the
source, the `test` expression of an `if` is not visited. -/
def cognitiveScore (n : Py) (nesting : Nat) : Nat :=
  match n with
  | .If _ body orelse _ =>
      1 + nesting + (body.attach.map fun s => cognitiveScore s.1 (nesting + 1)).sum +
        cognitiveOrelse orelse nesting
  | .For t i b o l =>
      1 + nesting +
        ((Py.For t i b o l).children.attach.map fun c =>
          cognitiveScore c.1 (nesting + 1)).sum
  | .While t b o l =>
      1 + nesting +
        ((Py.While t b o l).children.attach.map fun c =>
          cognitiveScore c.1 (nesting + 1)).sum
  | .BoolOp values l =>
      1 + ((Py.BoolOp values l).children.attach.map fun c =>
        cognitiveScore c.1 nesting).sum
  | .IfExp t b o l =>
      1 + nesting + ((Py.IfExp t b o l).children.attach.map fun c =>
        cognitiveScore c.1 nesting).sum
  | .Try body handlers orelse finalbody _ =>
      (body.attach.map fun s => cognitiveScore s.1 nesting).sum +
        (handlers.attach.map fun h =>
          1 + nesting +
            match hh : h.1 with
            | .ExceptHandler _ _ hbody _ =>
                (hbody.attach.map fun s => cognitiveScore s.1 (nesting + 1)).sum
            | _ => 0).sum +
        (orelse.attach.map fun s => cognitiveScore s.1 nesting).sum +
        (finalbody.attach.map fun s => cognitiveScore s.1 nesting).sum
  | .Break _ => 1
  | .Continue _ => 1
  | .FunctionDef nm a b d r l e =>
      ((Py.FunctionDef nm a b d r l e).children.attach.map fun c =>
        cognitiveScore c.1 (nesting + 1)).sum
  | .AsyncFunctionDef nm a b d r l e =>
      ((Py.AsyncFunctionDef nm a b d r l e).children.attach.map fun c =>
        cognitiveScore c.1 (nesting + 1)).sum
  | .Lambda a b l =>
      ((Py.Lambda a b l).children.attach.map fun c =>
        cognitiveScore c.1 (nesting + 1)).sum
  | m => (m.children.attach.map fun c => cognitiveScore c.1 nesting).sum
termination_by sizeOf n
decreasing_by
  all_goals
    first
      | exact Py.sizeOf_mem_children c.2
      | (have h1 := List.sizeOf_lt_of_mem s.2; simp; omega)
      | (simp; omega)
      | (have h1 := List.sizeOf_lt_of_mem h.2
         have h2 := List.sizeOf_lt_of_mem s.2
         rw [hh] at h1
         simp at h1
         simp
         omega)

/-- The `orelse` handling shared by `_cognitive_for_if` and
`_cognitive_for_if_body`: an empty `orelse` adds nothing; a single `if`
(an `elif`) adds `1` plus its body at `nesting + 1` and its own `orelse`
recursively; any other `else` block adds `1` plus its statements at
`nesting + 1`. -/
def cognitiveOrelse (orelse : List Py) (nesting : Nat) : Nat :=
  match orelse with
  | [] => 0
  | [.If _ body2 orelse2 _] =>
      1 + ((body2.attach.map fun s => cognitiveScore s.1 (nesting + 1)).sum +
        cognitiveOrelse orelse2 nesting)
  | other => 1 + (other.attach.map fun s => cognitiveScore s.1 (nesting + 1)).sum
termination_by sizeOf orelse
decreasing_by
  all_goals
    first
      | exact List.sizeOf_lt_of_mem s.2
      | (have h1 := List.sizeOf_lt_of_mem s.2; simp; omega)
      | (simp; omega)
end

/-- Source `_cognitive_for_node`: sum of the scores of a node's children at
the given nesting. -/
def cognitiveForNode (n : Py) (nesting : Nat) : Nat :=
  (n.children.map fun c => cognitiveScore c nesting).sum

/-- Source `_max_cognitive_complexity`: maximum `_cognitive_for_node` at
nesting 0 over all function definitions. -/
def maxCognitiveComplexity (tree : Py) : Nat :=
  (tree.walk.filter Py.isFuncDef).foldl
    (fun acc f => max acc (cognitiveForNode f 0)) 0

/-- Source `_get_param_names`: positional, keyword-only, `*args` and
`**kwargs` parameter names of a function. -/
def getParamNames (a : PyArguments) : List String :=
  a.args.map PyArg.arg ++ a.kwonlyargs.map PyArg.arg ++
    (a.vararg.toList.map PyArg.arg) ++ (a.kwarg.toList.map PyArg.arg)

/-- The `Store`-context simple-name test of `_max_local_variables`. -/
def storeNameId : Py → Option String
  | .Name i .store _ => some i
  | _ => none

/-- Source `_max_local_variables`: for each function, the number of distinct
`Store`-context names in its walk that are not parameter names; maximum
over functions. -/
def maxLocalVariables (tree : Py) : Nat :=
  (tree.walk.filter Py.isFuncDef).foldl
    (fun acc f =>
      match f with
      | .FunctionDef _ args _ _ _ _ _ =>
          max acc (((f.walk.filterMap storeNameId).filter fun i =>
            !(getParamNames args).contains i).dedup.length)
      | .AsyncFunctionDef _ args _ _ _ _ _ =>
          max acc (((f.walk.filterMap storeNameId).filter fun i =>
            !(getParamNames args).contains i).dedup.length)
      | _ => acc) 0

/-- The debugger module names of `_find_debugger_stmts`. -/
def DEBUGGER_MODULES : List String := ["pdb", "ipdb", "pudb"]

/-- Source `_find_debugger_stmts`: `breakpoint()` calls, `import pdb`-style
imports and `from pdb import ...` imports. -/
def findDebuggerStmts (tree : Py) : List Nat :=
  tree.walk.filterMap fun n =>
    match n with
    | .Call (.Name "breakpoint" _ _) _ _ l => some l
    | .Import names l =>
        if names.any (fun a => DEBUGGER_MODULES.contains a.name) then some l
        else none
    | .ImportFrom (some m) _ l =>
        if DEBUGGER_MODULES.contains m then some l else none
    | _ => none

/-- The import-statement test of `_find_nested_imports`. -/
def Py.isImportStmt : Py → Bool
  | .Import _ _ => true
  | .ImportFrom _ _ _ => true
  | _ => false

/-- Source `_find_nested_imports`: lines of import statements occurring in
the walk of any function definition. -/
def findNestedImports (tree : Py) : List Nat :=
  tree.walk.flatMap fun f =>
    if f.isFuncDef then
      f.walk.filterMap fun c => if c.isImportStmt then some c.lineno else none
    else []

/-- Source `_find_unannotated_fns`: functions with no return annotation, or
with a non-`self`/`cls` positional parameter lacking an annotation. -/
def findUnannotatedFns (tree : Py) : List String :=
  tree.walk.flatMap fun n =>
    match n with
    | .FunctionDef name args _ _ ret _ _ =>
        if ret.isNone then [name]
        else if args.args.any fun a =>
            a.arg != "self" && a.arg != "cls" && a.annot.isNone
          then [name] else []
    | .AsyncFunctionDef name args _ _ ret _ _ =>
        if ret.isNone then [name]
        else if args.args.any fun a =>
            a.arg != "self" && a.arg != "cls" && a.annot.isNone
          then [name] else []
    | _ => []

/-! The data model from `models.py` and the checker protocol from
`constraint_checks.py`. -/

/-- A value stored in the metrics dict: the checkers store numbers, strings,
lists of line numbers and lists of names. -/
inductive MVal where
  | nat (n : Nat)
  | str (s : String)
  | natList (l : List Nat)
  | strList (l : List String)
deriving DecidableEq

/-- The `metrics` dict of a `ConstraintResult`: an insertion-ordered map.
Each checker inserts at most one fresh key, so an append-only association
list models the Python dict exactly. -/
abbrev Metrics := List (String × MVal)

/-- A source text, represented by the two observations the checkers make of
it: `len(source_code.splitlines())` and the (shared) outcome of
`ast.parse(source_code)` — a parse-error message (`SyntaxError`) or the
parsed module. -/
structure Source where
  numLines : Nat
  parsed : Except String Py

/-- `ConstraintSet` from `models.py`: ~34 independently optional fields,
all defaulting to `None`.  The pydantic numeric floors (`ge=1`/`ge=0`) are
not modelled beyond nonnegativity (`Nat`); no claim here depends on them. -/
structure ConstraintSet where
  max_cyclomatic_complexity : Option Nat := none
  max_lines_per_function : Option Nat := none
  max_total_lines : Option Nat := none
  max_time_complexity : Option String := none
  max_parameters : Option Nat := none
  max_nested_depth : Option Nat := none
  max_return_statements : Option Nat := none
  require_docstrings : Option Bool := none
  no_print_statements : Option Bool := none
  no_star_imports : Option Bool := none
  no_mutable_defaults : Option Bool := none
  no_global_state : Option Bool := none
  allowed_imports : Option (List String) := none
  no_bare_except : Option Bool := none
  no_try_except_pass : Option Bool := none
  no_return_in_finally : Option Bool := none
  no_unreachable_code : Option Bool := none
  no_duplicate_dict_keys : Option Bool := none
  no_loop_variable_closure : Option Bool := none
  no_mutable_call_in_defaults : Option Bool := none
  no_shadowing_builtins : Option Bool := none
  no_open_without_context_manager : Option Bool := none
  no_eval : Option Bool := none
  no_exec : Option Bool := none
  no_unsafe_deserialization : Option Bool := none
  no_unsafe_yaml : Option Bool := none
  no_shell_true : Option Bool := none
  no_hardcoded_secrets : Option Bool := none
  no_requests_without_timeout : Option Bool := none
  max_cognitive_complexity : Option Nat := none
  max_local_variables : Option Nat := none
  no_debugger_statements : Option Bool := none
  no_nested_imports : Option Bool := none
  require_type_annotations : Option Bool := none
deriving DecidableEq

/-- `TaskConstraints` from `models.py`. -/
structure TaskConstraints where
  primary : ConstraintSet
  secondary : ConstraintSet
  target_files : List String
  guidance : List String := []

/-- `ConstraintResult` from `models.py`. -/
structure ConstraintResult where
  passed : Bool
  violations : List String
  metrics : Metrics
deriving DecidableEq

/-- The shared checker shape `(src, cs, v, m)` of `constraint_checks.py`:
each checker reads the source and constraint set and extends the violation
and metric accumulators.  A checker that parses propagates the
`SyntaxError` of `ast.parse` through the `Except` layer. -/
abbrev Checker :=
  Source → ConstraintSet → List String → Metrics → Except String (List String × Metrics)

/-- Source `_chk_cyclomatic_complexity`. -/
def chk_cyclomatic_complexity : Checker := fun src cs v m =>
  match cs.max_cyclomatic_complexity with
  | none => .ok (v, m)
  | some limit => do
      let tree ← src.parsed
      let maxCC := maxCyclomaticComplexity tree
      .ok (if maxCC > limit then
            v ++ ["Cyclomatic complexity " ++ toString maxCC ++ " > max " ++ toString limit]
          else v,
        m ++ [("cyclomatic_complexity", .nat maxCC)])

/-- Source `_chk_lines_per_function`. -/
def chk_lines_per_function : Checker := fun src cs v m =>
  match cs.max_lines_per_function with
  | none => .ok (v, m)
  | some limit => do
      let tree ← src.parsed
      let maxLines := maxFunctionLines tree
      .ok (if maxLines > limit then
            v ++ ["Function has " ++ toString maxLines ++ " lines > max " ++ toString limit]
          else v,
        m ++ [("lines_per_function", .nat maxLines)])

/-- Source `_chk_total_lines`: the only checker that does not parse — it
counts lines of the raw text. -/
def chk_total_lines : Checker := fun src cs v m =>
  match cs.max_total_lines with
  | none => .ok (v, m)
  | some limit =>
      let total := src.numLines
      .ok (if total > limit then
            v ++ ["Total lines " ++ toString total ++ " > max " ++ toString limit]
          else v,
        m ++ [("total_lines", .nat total)])

/-- Source `_chk_docstrings` (guard `is not True`). -/
def chk_docstrings : Checker := fun src cs v m =>
  match cs.require_docstrings with
  | some true => do
      let tree ← src.parsed
      let issues := checkDocstrings tree
      .ok (v ++ issues, m ++ [("missing_docstrings", .strList issues)])
  | _ => .ok (v, m)

/-- Source `_chk_time_complexity`. -/
def chk_time_complexity : Checker := fun src cs v m =>
  match cs.max_time_complexity with
  | none => .ok (v, m)
  | some limit => do
      let tree ← src.parsed
      let estimated := estimateTimeComplexity tree
      .ok (if complexityRank estimated > complexityRank limit then
            v ++ ["Time complexity " ++ estimated ++ " exceeds max " ++ limit]
          else v,
        m ++ [("time_complexity", .str estimated)])

/-- Source `_chk_parameters`. -/
def chk_parameters : Checker := fun src cs v m =>
  match cs.max_parameters with
  | none => .ok (v, m)
  | some limit => do
      let tree ← src.parsed
      let maxParams := maxParameters tree
      .ok (if maxParams > limit then
            v ++ ["Function has " ++ toString maxParams ++ " parameters > max " ++ toString limit]
          else v,
        m ++ [("max_parameters", .nat maxParams)])

/-- Source `_chk_nested_depth`. -/
def chk_nested_depth : Checker := fun src cs v m =>
  match cs.max_nested_depth with
  | none => .ok (v, m)
  | some limit => do
      let tree ← src.parsed
      let depth := maxNestingDepth tree
      .ok (if depth > limit then
            v ++ ["Nesting depth " ++ toString depth ++ " > max " ++ toString limit]
          else v,
        m ++ [("max_nested_depth", .nat depth)])

/-- Source `_chk_return_statements`. -/
def chk_return_statements : Checker := fun src cs v m =>
  match cs.max_return_statements with
  | none => .ok (v, m)
  | some limit => do
      let tree ← src.parsed
      let maxReturns := maxReturnStatements tree
      .ok (if maxReturns > limit then
            v ++ ["Function has " ++ toString maxReturns ++
              " return statements > max " ++ toString limit]
          else v,
        m ++ [("max_return_statements", .nat maxReturns)])

/-- Source `_chk_print_statements`. -/
def chk_print_statements : Checker := fun src cs v m =>
  match cs.no_print_statements with
  | some true => do
      let tree ← src.parsed
      let prints := findPrintCalls tree
      .ok (v ++ prints.map (fun loc => "Print statement at line " ++ toString loc),
        m ++ [("print_statements", .natList prints)])
  | _ => .ok (v, m)

/-- Source `_chk_star_imports`. -/
def chk_star_imports : Checker := fun src cs v m =>
  match cs.no_star_imports with
  | some true => do
      let tree ← src.parsed
      let stars := findStarImports tree
      .ok (v ++ stars.map (fun mo => "Star import: from " ++ mo ++ " import *"),
        m ++ [("star_imports", .strList stars)])
  | _ => .ok (v, m)

/-- Source `_chk_mutable_defaults`. -/
def chk_mutable_defaults : Checker := fun src cs v m =>
  match cs.no_mutable_defaults with
  | some true => do
      let tree ← src.parsed
      let mutables := findMutableDefaults tree
      .ok (v ++ mutables.map (fun name => "Mutable default argument in " ++ name),
        m ++ [("mutable_defaults", .strList mutables)])
  | _ => .ok (v, m)

/-- Source `_chk_global_state`. -/
def chk_global_state : Checker := fun src cs v m =>
  match cs.no_global_state with
  | some true => do
      let tree ← src.parsed
      let found := findGlobalState tree
      .ok (v ++ found.map (fun name => "Global mutable state: " ++ name),
        m ++ [("global_state", .strList found)])
  | _ => .ok (v, m)

/-- Source `_chk_allowed_imports`. -/
def chk_allowed_imports : Checker := fun src cs v m =>
  match cs.allowed_imports with
  | none => .ok (v, m)
  | some allowed => do
      let tree ← src.parsed
      let forbidden := checkImports tree allowed
      .ok (v ++ forbidden.map (fun imp => "Forbidden import: " ++ imp),
        m ++ [("forbidden_imports", .strList forbidden)])

/-- Source `_chk_bare_except`. -/
def chk_bare_except : Checker := fun src cs v m =>
  match cs.no_bare_except with
  | some true => do
      let tree ← src.parsed
      let lines := findBareExcepts tree
      .ok (v ++ lines.map (fun ln => "Bare except at line " ++ toString ln),
        m ++ [("bare_excepts", .natList lines)])
  | _ => .ok (v, m)

/-- Source `_chk_try_except_pass`. -/
def chk_try_except_pass : Checker := fun src cs v m =>
  match cs.no_try_except_pass with
  | some true => do
      let tree ← src.parsed
      let lines := findTryExceptPass tree
      .ok (v ++ lines.map (fun ln =>
            "Silenced exception (except/pass) at line " ++ toString ln),
        m ++ [("try_except_pass", .natList lines)])
  | _ => .ok (v, m)

/-- Source `_chk_return_in_finally`. -/
def chk_return_in_finally : Checker := fun src cs v m =>
  match cs.no_return_in_finally with
  | some true => do
      let tree ← src.parsed
      let lines := findReturnInFinally tree
      .ok (v ++ lines.map (fun ln =>
            "Return/break/continue in finally block at line " ++ toString ln),
        m ++ [("return_in_finally", .natList lines)])
  | _ => .ok (v, m)

/-- Source `_chk_unreachable_code`. -/
def chk_unreachable_code : Checker := fun src cs v m =>
  match cs.no_unreachable_code with
  | some true => do
      let tree ← src.parsed
      let lines := findUnreachableCode tree
      .ok (v ++ lines.map (fun ln => "Unreachable code at line " ++ toString ln),
        m ++ [("unreachable_code", .natList lines)])
  | _ => .ok (v, m)

/-- Source `_chk_duplicate_dict_keys`. -/
def chk_duplicate_dict_keys : Checker := fun src cs v m =>
  match cs.no_duplicate_dict_keys with
  | some true => do
      let tree ← src.parsed
      let lines := findDuplicateDictKeys tree
      .ok (v ++ lines.map (fun ln => "Duplicate dictionary key at line " ++ toString ln),
        m ++ [("duplicate_dict_keys", .natList lines)])
  | _ => .ok (v, m)

/-- Source `_chk_loop_variable_closure`. -/
def chk_loop_variable_closure : Checker := fun src cs v m =>
  match cs.no_loop_variable_closure with
  | some true => do
      let tree ← src.parsed
      let lines := findLoopClosures tree
      .ok (v ++ lines.map (fun ln =>
            "Closure captures loop variable at line " ++ toString ln),
        m ++ [("loop_variable_closures", .natList lines)])
  | _ => .ok (v, m)

/-- Source `_chk_mutable_call_defaults`. -/
def chk_mutable_call_defaults : Checker := fun src cs v m =>
  match cs.no_mutable_call_in_defaults with
  | some true => do
      let tree ← src.parsed
      let names := findCallDefaults tree
      .ok (v ++ names.map (fun name =>
            "Function call in default argument in " ++ name),
        m ++ [("mutable_call_defaults", .strList names)])
  | _ => .ok (v, m)

/-- Source `_chk_shadowing_builtins`. -/
def chk_shadowing_builtins : Checker := fun src cs v m =>
  match cs.no_shadowing_builtins with
  | some true => do
      let tree ← src.parsed
      let names := findShadowedBuiltins tree
      .ok (v ++ names.map (fun name => "Shadows builtin: " ++ name),
        m ++ [("shadowed_builtins", .strList names)])
  | _ => .ok (v, m)

/-- Source `_chk_open_without_with`. -/
def chk_open_without_with : Checker := fun src cs v m =>
  match cs.no_open_without_context_manager with
  | some true => do
      let tree ← src.parsed
      let lines := findOpenWithoutWith tree
      .ok (v ++ lines.map (fun ln =>
            "open() without context manager at line " ++ toString ln),
        m ++ [("open_without_with", .natList lines)])
  | _ => .ok (v, m)

/-- Source `_chk_eval`. -/
def chk_eval : Checker := fun src cs v m =>
  match cs.no_eval with
  | some true => do
      let tree ← src.parsed
      let lines := findCallsByName tree "eval"
      .ok (v ++ lines.map (fun ln => "eval() call at line " ++ toString ln),
        m ++ [("eval_calls", .natList lines)])
  | _ => .ok (v, m)

/-- Source `_chk_exec`. -/
def chk_exec : Checker := fun src cs v m =>
  match cs.no_exec with
  | some true => do
      let tree ← src.parsed
      let lines := findCallsByName tree "exec"
      .ok (v ++ lines.map (fun ln => "exec() call at line " ++ toString ln),
        m ++ [("exec_calls", .natList lines)])
  | _ => .ok (v, m)

/-- Source `_chk_unsafe_deserialization`. -/
def chk_unsafe_deserialization : Checker := fun src cs v m =>
  match cs.no_unsafe_deserialization with
  | some true => do
      let tree ← src.parsed
      let lines := findUnsafeDeser tree
      .ok (v ++ lines.map (fun ln => "Unsafe deserialization at line " ++ toString ln),
        m ++ [("unsafe_deserialization", .natList lines)])
  | _ => .ok (v, m)

/-- Source `_chk_unsafe_yaml`. -/
def chk_unsafe_yaml : Checker := fun src cs v m =>
  match cs.no_unsafe_yaml with
  | some true => do
      let tree ← src.parsed
      let lines := findUnsafeYaml tree
      .ok (v ++ lines.map (fun ln =>
            "Unsafe yaml.load() without SafeLoader at line " ++ toString ln),
        m ++ [("unsafe_yaml", .natList lines)])
  | _ => .ok (v, m)

/-- Source `_chk_shell_true`. -/
def chk_shell_true : Checker := fun src cs v m =>
  match cs.no_shell_true with
  | some true => do
      let tree ← src.parsed
      let lines := findShellTrue tree
      .ok (v ++ lines.map (fun ln =>
            "subprocess with shell=True at line " ++ toString ln),
        m ++ [("shell_true", .natList lines)])
  | _ => .ok (v, m)

/-- Source `_chk_hardcoded_secrets`. -/
def chk_hardcoded_secrets : Checker := fun src cs v m =>
  match cs.no_hardcoded_secrets with
  | some true => do
      let tree ← src.parsed
      let names := findHardcodedSecrets tree
      .ok (v ++ names.map (fun name =>
            "Hardcoded secret in variable: " ++ name),
        m ++ [("hardcoded_secrets", .strList names)])
  | _ => .ok (v, m)

/-- Source `_chk_requests_no_timeout`. -/
def chk_requests_no_timeout : Checker := fun src cs v m =>
  match cs.no_requests_without_timeout with
  | some true => do
      let tree ← src.parsed
      let lines := findRequestsNoTimeout tree
      .ok (v ++ lines.map (fun ln =>
            "HTTP request without timeout at line " ++ toString ln),
        m ++ [("requests_no_timeout", .natList lines)])
  | _ => .ok (v, m)

/-- Source `_chk_cognitive_complexity`. -/
def chk_cognitive_complexity : Checker := fun src cs v m =>
  match cs.max_cognitive_complexity with
  | none => .ok (v, m)
  | some limit => do
      let tree ← src.parsed
      let maxCC := maxCognitiveComplexity tree
      .ok (if maxCC > limit then
            v ++ ["Cognitive complexity " ++ toString maxCC ++ " > max " ++ toString limit]
          else v,
        m ++ [("cognitive_complexity", .nat maxCC)])

/-- Source `_chk_local_variables`. -/
def chk_local_variables : Checker := fun src cs v m =>
  match cs.max_local_variables with
  | none => .ok (v, m)
  | some limit => do
      let tree ← src.parsed
      let maxLocals := maxLocalVariables tree
      .ok (if maxLocals > limit then
            v ++ ["Function has " ++ toString maxLocals ++
              " local variables > max " ++ toString limit]
          else v,
        m ++ [("max_local_variables", .nat maxLocals)])

/-- Source `_chk_debugger_statements`. -/
def chk_debugger_statements : Checker := fun src cs v m =>
  match cs.no_debugger_statements with
  | some true => do
      let tree ← src.parsed
      let lines := findDebuggerStmts tree
      .ok (v ++ lines.map (fun ln => "Debugger statement at line " ++ toString ln),
        m ++ [("debugger_statements", .natList lines)])
  | _ => .ok (v, m)

/-- Source `_chk_nested_imports`. -/
def chk_nested_imports : Checker := fun src cs v m =>
  match cs.no_nested_imports with
  | some true => do
      let tree ← src.parsed
      let lines := findNestedImports tree
      .ok (v ++ lines.map (fun ln => "Nested import at line " ++ toString ln),
        m ++ [("nested_imports", .natList lines)])
  | _ => .ok (v, m)

/-- Source `_chk_type_annotations`. -/
def chk_type_annotations : Checker := fun src cs v m =>
  match cs.require_type_annotations with
  | some true => do
      let tree ← src.parsed
      let names := findUnannotatedFns tree
      .ok (v ++ names.map (fun name => "Missing type annotations in " ++ name),
        m ++ [("unannotated_functions", .strList names)])
  | _ => .ok (v, m)

/-- Source `_CHECKERS`: the fixed, ordered checker registry. -/
def CHECKERS : List Checker :=
  [chk_cyclomatic_complexity,
   chk_lines_per_function,
   chk_total_lines,
   chk_docstrings,
   chk_time_complexity,
   chk_parameters,
   chk_nested_depth,
   chk_return_statements,
   chk_print_statements,
   chk_star_imports,
   chk_mutable_defaults,
   chk_global_state,
   chk_allowed_imports,
   chk_bare_except,
   chk_try_except_pass,
   chk_return_in_finally,
   chk_unreachable_code,
   chk_duplicate_dict_keys,
   chk_loop_variable_closure,
   chk_mutable_call_defaults,
   chk_shadowing_builtins,
   chk_open_without_with,
   chk_eval,
   chk_exec,
   chk_unsafe_deserialization,
   chk_unsafe_yaml,
   chk_shell_true,
   chk_hardcoded_secrets,
   chk_requests_no_timeout,
   chk_cognitive_complexity,
   chk_local_variables,
   chk_debugger_statements,
   chk_nested_imports,
   chk_type_annotations]

/-- Source `_evaluate`: run every registered checker over the shared
accumulators; `passed` is `len(violations) == 0`.  A `SyntaxError` raised
by a checker propagates and no `ConstraintResult` is produced. -/
def evaluate (src : Source) (cs : ConstraintSet) : Except String ConstraintResult := do
  let (v, m) ← CHECKERS.foldlM (fun st c => c src cs st.1 st.2) (([] : List String), ([] : Metrics))
  .ok ⟨v.isEmpty, v, m⟩

/-- Source `check_constraints`: evaluate the primary gate; on failure return
a vacuous passing secondary result without evaluating the secondary gate,
otherwise evaluate the secondary gate. -/
def check_constraints (src : Source) (constraints : TaskConstraints) :
    Except String (ConstraintResult × ConstraintResult) := do
  let primary ← evaluate src constraints.primary
  if !primary.passed then
    .ok (primary, ⟨true, [], []⟩)
  else do
    let secondary ← evaluate src constraints.secondary
    .ok (primary, secondary)

/-! Verification metadata for the checker registry: for each checker, its
enabling guard, metric key, metric value, violation block and semantic
failure condition, read off the corresponding `_chk_*` function. -/

/-- Metadata describing one registered checker. -/
structure CheckerEntry where
  run : Checker
  enabled : ConstraintSet → Bool
  needsParse : Bool
  key : String
  metric : ConstraintSet → Source → Py → MVal
  viols : ConstraintSet → Source → Py → List String
  fails : ConstraintSet → Source → Py → Bool

/-- The behaviours shared by all registered checkers: a disabled checker
leaves the accumulators untouched; an enabled checker on a parsed source
appends exactly its violation block and records exactly its metric; the
violation block is empty exactly when the check does not fail; an enabled
parsing checker propagates the parse error; a non-parsing checker never
fails with an error. -/
def EntryOk (e : CheckerEntry) : Prop :=
  ∀ src cs v m,
    (e.enabled cs = false → e.run src cs v m = .ok (v, m)) ∧
    (∀ t, src.parsed = .ok t → e.enabled cs = true →
      e.run src cs v m = .ok (v ++ e.viols cs src t, m ++ [(e.key, e.metric cs src t)])) ∧
    (∀ t, e.viols cs src t = [] ↔ e.fails cs src t = false) ∧
    (∀ msg, src.parsed = .error msg → e.enabled cs = true → e.needsParse = true →
      e.run src cs v m = .error msg) ∧
    (e.needsParse = false → ∃ v2 m2, e.run src cs v m = .ok (v2, m2))

/-- The common shape of the seven threshold checkers guarded by an
`Option Nat` field. -/
def thresholdRun (field : ConstraintSet → Option Nat) (metricF : Py → Nat)
    (key : String) (msg : Nat → Nat → String) : Checker := fun src cs v m =>
  match field cs with
  | none => .ok (v, m)
  | some limit => do
      let tree ← src.parsed
      .ok (if metricF tree > limit then v ++ [msg (metricF tree) limit] else v,
        m ++ [(key, .nat (metricF tree))])

/-- Registry entry for a threshold checker. -/
def thresholdEntry (run : Checker) (field : ConstraintSet → Option Nat)
    (metricF : Py → Nat) (key : String) (msg : Nat → Nat → String) : CheckerEntry where
  run := run
  enabled := fun cs => (field cs).isSome
  needsParse := true
  key := key
  metric := fun _ _ t => .nat (metricF t)
  viols := fun cs _ t =>
    match field cs with
    | none => []
    | some limit => if metricF t > limit then [msg (metricF t) limit] else []
  fails := fun cs _ t =>
    match field cs with
    | none => false
    | some limit => decide (metricF t > limit)

/-- A threshold entry whose `run` is the matching `thresholdRun` satisfies
`EntryOk`. -/
lemma thresholdEntry_ok (run : Checker) (field : ConstraintSet → Option Nat)
    (metricF : Py → Nat) (key : String) (msg : Nat → Nat → String)
    (hrun : run = thresholdRun field metricF key msg) :
    EntryOk (thresholdEntry run field metricF key msg) := by
  subst hrun
  intro src cs v m
  refine ⟨?_, ?_, ?_, ?_, ?_⟩
  · intro hen
    cases hf : field cs with
    | none => simp [thresholdEntry, thresholdRun, hf]
    | some limit => simp [thresholdEntry, hf] at hen
  · intro t ht _hen
    cases hf : field cs with
    | none => simp [thresholdEntry, hf] at _hen
    | some limit =>
        simp only [thresholdEntry, thresholdRun, hf, ht, bind, Except.bind]
        by_cases hgt : metricF t > limit <;> simp [hgt]
  · intro t
    cases hf : field cs with
    | none => simp [thresholdEntry, hf]
    | some limit =>
        by_cases hgt : metricF t > limit <;> simp [thresholdEntry, hf, hgt]
  · intro msg2 hsrc _hen _hp
    cases hf : field cs with
    | none => simp [thresholdEntry, hf] at _hen
    | some limit =>
        simp [thresholdEntry, thresholdRun, hf, hsrc, bind, Except.bind]
  · intro hp
    simp [thresholdEntry] at hp

/-- The common shape of the detector checkers guarded by a boolean field
(`is not True` guard): report one violation per finding and record the
finding list as the metric. -/
def detectorRun {α : Type} (field : ConstraintSet → Option Bool)
    (resultsF : Py → List α) (key : String) (msg : α → String)
    (mval : List α → MVal) : Checker := fun src cs v m =>
  match field cs with
  | some true => do
      let tree ← src.parsed
      .ok (v ++ (resultsF tree).map msg, m ++ [(key, mval (resultsF tree))])
  | _ => .ok (v, m)

/-- Registry entry for a detector checker. -/
def detectorEntry {α : Type} (run : Checker) (field : ConstraintSet → Option Bool)
    (resultsF : Py → List α) (key : String) (msg : α → String)
    (mval : List α → MVal) : CheckerEntry where
  run := run
  enabled := fun cs => field cs == some true
  needsParse := true
  key := key
  metric := fun _ _ t => mval (resultsF t)
  viols := fun cs _ t =>
    match field cs with
    | some true => (resultsF t).map msg
    | _ => []
  fails := fun cs _ t =>
    match field cs with
    | some true => !(resultsF t).isEmpty
    | _ => false

/-- A detector entry whose `run` is the matching `detectorRun` satisfies
`EntryOk`. -/
lemma detectorEntry_ok {α : Type} (run : Checker) (field : ConstraintSet → Option Bool)
    (resultsF : Py → List α) (key : String) (msg : α → String) (mval : List α → MVal)
    (hrun : run = detectorRun field resultsF key msg mval) :
    EntryOk (detectorEntry run field resultsF key msg mval) := by
  subst hrun
  intro src cs v m
  refine ⟨?_, ?_, ?_, ?_, ?_⟩
  · intro hen
    match hf : field cs with
    | some true => simp [detectorEntry, hf] at hen
    | some false => simp [detectorEntry, detectorRun, hf]
    | none => simp [detectorEntry, detectorRun, hf]
  · intro t ht _hen
    match hf : field cs with
    | some true => simp [detectorEntry, detectorRun, hf, ht, bind, Except.bind]
    | some false => simp [detectorEntry, hf] at _hen
    | none => simp [detectorEntry, hf] at _hen
  · intro t
    match hf : field cs with
    | some true => simp [detectorEntry, hf, List.isEmpty_iff]
    | some false => simp [detectorEntry, hf]
    | none => simp [detectorEntry, hf]
  · intro msg2 hsrc _hen _hp
    match hf : field cs with
    | some true => simp [detectorEntry, detectorRun, hf, hsrc, bind, Except.bind]
    | some false => simp [detectorEntry, hf] at _hen
    | none => simp [detectorEntry, hf] at _hen
  · intro hp
    simp [detectorEntry] at hp

/-- Registry entry for `_chk_total_lines`, the only non-parsing checker. -/
def totalLinesEntry : CheckerEntry where
  run := chk_total_lines
  enabled := fun cs => cs.max_total_lines.isSome
  needsParse := false
  key := "total_lines"
  metric := fun _ src _ => .nat src.numLines
  viols := fun cs src _ =>
    match cs.max_total_lines with
    | none => []
    | some limit =>
        if src.numLines > limit then
          ["Total lines " ++ toString src.numLines ++ " > max " ++ toString limit]
        else []
  fails := fun cs src _ =>
    match cs.max_total_lines with
    | none => false
    | some limit => decide (src.numLines > limit)

/-- `totalLinesEntry` satisfies `EntryOk`. -/
lemma totalLinesEntry_ok : EntryOk totalLinesEntry := by
  intro src cs v m
  refine ⟨?_, ?_, ?_, ?_, ?_⟩
  · intro hen
    cases hf : cs.max_total_lines with
    | none => simp [totalLinesEntry, chk_total_lines, hf]
    | some limit => simp [totalLinesEntry, hf] at hen
  · intro t _ht _hen
    cases hf : cs.max_total_lines with
    | none => simp [totalLinesEntry, hf] at _hen
    | some limit =>
        by_cases hgt : src.numLines > limit <;>
          simp [totalLinesEntry, chk_total_lines, hf, hgt]
  · intro t
    cases hf : cs.max_total_lines with
    | none => simp [totalLinesEntry, hf]
    | some limit =>
        by_cases hgt : src.numLines > limit <;> simp [totalLinesEntry, hf, hgt]
  · intro msg2 _hsrc _hen hp
    simp [totalLinesEntry] at hp
  · intro _hp
    cases hf : cs.max_total_lines with
    | none => exact ⟨v, m, by simp [totalLinesEntry, chk_total_lines, hf]⟩
    | some limit =>
        refine ⟨if src.numLines > limit then
            v ++ ["Total lines " ++ toString src.numLines ++ " > max " ++ toString limit]
          else v,
          m ++ [("total_lines", .nat src.numLines)], ?_⟩
        simp [totalLinesEntry, chk_total_lines, hf]

/-- Registry entry for `_chk_docstrings` (violations are the issue strings
themselves, extended onto the list without a message wrapper). -/
def docstringsEntry : CheckerEntry where
  run := chk_docstrings
  enabled := fun cs => cs.require_docstrings == some true
  needsParse := true
  key := "missing_docstrings"
  metric := fun _ _ t => .strList (checkDocstrings t)
  viols := fun cs _ t =>
    match cs.require_docstrings with
    | some true => checkDocstrings t
    | _ => []
  fails := fun cs _ t =>
    match cs.require_docstrings with
    | some true => !(checkDocstrings t).isEmpty
    | _ => false

/-- `docstringsEntry` satisfies `EntryOk`. -/
lemma docstringsEntry_ok : EntryOk docstringsEntry := by
  intro src cs v m
  refine ⟨?_, ?_, ?_, ?_, ?_⟩
  · intro hen
    match hf : cs.require_docstrings with
    | some true => simp [docstringsEntry, hf] at hen
    | some false => simp [docstringsEntry, chk_docstrings, hf]
    | none => simp [docstringsEntry, chk_docstrings, hf]
  · intro t ht _hen
    match hf : cs.require_docstrings with
    | some true => simp [docstringsEntry, chk_docstrings, hf, ht, bind, Except.bind]
    | some false => simp [docstringsEntry, hf] at _hen
    | none => simp [docstringsEntry, hf] at _hen
  · intro t
    match hf : cs.require_docstrings with
    | some true => simp [docstringsEntry, hf, List.isEmpty_iff]
    | some false => simp [docstringsEntry, hf]
    | none => simp [docstringsEntry, hf]
  · intro msg2 hsrc _hen _hp
    match hf : cs.require_docstrings with
    | some true => simp [docstringsEntry, chk_docstrings, hf, hsrc, bind, Except.bind]
    | some false => simp [docstringsEntry, hf] at _hen
    | none => simp [docstringsEntry, hf] at _hen
  · intro hp
    simp [docstringsEntry] at hp

/-- Registry entry for `_chk_time_complexity`. -/
def timeComplexityEntry : CheckerEntry where
  run := chk_time_complexity
  enabled := fun cs => cs.max_time_complexity.isSome
  needsParse := true
  key := "time_complexity"
  metric := fun _ _ t => .str (estimateTimeComplexity t)
  viols := fun cs _ t =>
    match cs.max_time_complexity with
    | none => []
    | some limit =>
        if complexityRank (estimateTimeComplexity t) > complexityRank limit then
          ["Time complexity " ++ estimateTimeComplexity t ++ " exceeds max " ++ limit]
        else []
  fails := fun cs _ t =>
    match cs.max_time_complexity with
    | none => false
    | some limit =>
        decide (complexityRank (estimateTimeComplexity t) > complexityRank limit)

/-- `timeComplexityEntry` satisfies `EntryOk`. -/
lemma timeComplexityEntry_ok : EntryOk timeComplexityEntry := by
  intro src cs v m
  refine ⟨?_, ?_, ?_, ?_, ?_⟩
  · intro hen
    cases hf : cs.max_time_complexity with
    | none => simp [timeComplexityEntry, chk_time_complexity, hf]
    | some limit => simp [timeComplexityEntry, hf] at hen
  · intro t ht _hen
    cases hf : cs.max_time_complexity with
    | none => simp [timeComplexityEntry, hf] at _hen
    | some limit =>
        by_cases hgt : complexityRank (estimateTimeComplexity t) > complexityRank limit <;>
          simp [timeComplexityEntry, chk_time_complexity, hf, ht, hgt, bind, Except.bind]
  · intro t
    cases hf : cs.max_time_complexity with
    | none => simp [timeComplexityEntry, hf]
    | some limit =>
        by_cases hgt : complexityRank (estimateTimeComplexity t) > complexityRank limit <;>
          simp [timeComplexityEntry, hf, hgt]
  · intro msg2 hsrc _hen _hp
    cases hf : cs.max_time_complexity with
    | none => simp [timeComplexityEntry, hf] at _hen
    | some limit =>
        simp [timeComplexityEntry, chk_time_complexity, hf, hsrc, bind, Except.bind]
  · intro hp
    simp [timeComplexityEntry] at hp

/-- Registry entry for `_chk_allowed_imports`: the only checker whose
metric value depends on the constraint set (the allowed list). -/
def allowedImportsEntry : CheckerEntry where
  run := chk_allowed_imports
  enabled := fun cs => cs.allowed_imports.isSome
  needsParse := true
  key := "forbidden_imports"
  metric := fun cs _ t =>
    match cs.allowed_imports with
    | none => .strList []
    | some allowed => .strList (checkImports t allowed)
  viols := fun cs _ t =>
    match cs.allowed_imports with
    | none => []
    | some allowed => (checkImports t allowed).map (fun imp => "Forbidden import: " ++ imp)
  fails := fun cs _ t =>
    match cs.allowed_imports with
    | none => false
    | some allowed => !(checkImports t allowed).isEmpty

/-- `allowedImportsEntry` satisfies `EntryOk`. -/
lemma allowedImportsEntry_ok : EntryOk allowedImportsEntry := by
  intro src cs v m
  refine ⟨?_, ?_, ?_, ?_, ?_⟩
  · intro hen
    cases hf : cs.allowed_imports with
    | none => simp [allowedImportsEntry, chk_allowed_imports, hf]
    | some allowed => simp [allowedImportsEntry, hf] at hen
  · intro t ht _hen
    cases hf : cs.allowed_imports with
    | none => simp [allowedImportsEntry, hf] at _hen
    | some allowed =>
        simp [allowedImportsEntry, chk_allowed_imports, hf, ht, bind, Except.bind]
  · intro t
    cases hf : cs.allowed_imports with
    | none => simp [allowedImportsEntry, hf]
    | some allowed => simp [allowedImportsEntry, hf, List.isEmpty_iff]
  · intro msg2 hsrc _hen _hp
    cases hf : cs.allowed_imports with
    | none => simp [allowedImportsEntry, hf] at _hen
    | some allowed =>
        simp [allowedImportsEntry, chk_allowed_imports, hf, hsrc, bind, Except.bind]
  · intro hp
    simp [allowedImportsEntry] at hp

/-- The registry metadata, entry by entry in `_CHECKERS` order. -/
def REGISTRY : List CheckerEntry :=
  [thresholdEntry chk_cyclomatic_complexity (fun cs => cs.max_cyclomatic_complexity)
     maxCyclomaticComplexity "cyclomatic_complexity"
     (fun a b => "Cyclomatic complexity " ++ toString a ++ " > max " ++ toString b),
   thresholdEntry chk_lines_per_function (fun cs => cs.max_lines_per_function)
     maxFunctionLines "lines_per_function"
     (fun a b => "Function has " ++ toString a ++ " lines > max " ++ toString b),
   totalLinesEntry,
   docstringsEntry,
   timeComplexityEntry,
   thresholdEntry chk_parameters (fun cs => cs.max_parameters)
     maxParameters "max_parameters"
     (fun a b => "Function has " ++ toString a ++ " parameters > max " ++ toString b),
   thresholdEntry chk_nested_depth (fun cs => cs.max_nested_depth)
     maxNestingDepth "max_nested_depth"
     (fun a b => "Nesting depth " ++ toString a ++ " > max " ++ toString b),
   thresholdEntry chk_return_statements (fun cs => cs.max_return_statements)
     maxReturnStatements "max_return_statements"
     (fun a b => "Function has " ++ toString a ++ " return statements > max " ++ toString b),
   detectorEntry chk_print_statements (fun cs => cs.no_print_statements)
     findPrintCalls "print_statements"
     (fun loc => "Print statement at line " ++ toString loc) MVal.natList,
   detectorEntry chk_star_imports (fun cs => cs.no_star_imports)
     findStarImports "star_imports"
     (fun mo => "Star import: from " ++ mo ++ " import *") MVal.strList,
   detectorEntry chk_mutable_defaults (fun cs => cs.no_mutable_defaults)
     findMutableDefaults "mutable_defaults"
     (fun name => "Mutable default argument in " ++ name) MVal.strList,
   detectorEntry chk_global_state (fun cs => cs.no_global_state)
     findGlobalState "global_state"
     (fun name => "Global mutable state: " ++ name) MVal.strList,
   allowedImportsEntry,
   detectorEntry chk_bare_except (fun cs => cs.no_bare_except)
     findBareExcepts "bare_excepts"
     (fun ln => "Bare except at line " ++ toString ln) MVal.natList,
   detectorEntry chk_try_except_pass (fun cs => cs.no_try_except_pass)
     findTryExceptPass "try_except_pass"
     (fun ln => "Silenced exception (except/pass) at line " ++ toString ln) MVal.natList,
   detectorEntry chk_return_in_finally (fun cs => cs.no_return_in_finally)
     findReturnInFinally "return_in_finally"
     (fun ln => "Return/break/continue in finally block at line " ++ toString ln) MVal.natList,
   detectorEntry chk_unreachable_code (fun cs => cs.no_unreachable_code)
     findUnreachableCode "unreachable_code"
     (fun ln => "Unreachable code at line " ++ toString ln) MVal.natList,
   detectorEntry chk_duplicate_dict_keys (fun cs => cs.no_duplicate_dict_keys)
     findDuplicateDictKeys "duplicate_dict_keys"
     (fun ln => "Duplicate dictionary key at line " ++ toString ln) MVal.natList,
   detectorEntry chk_loop_variable_closure (fun cs => cs.no_loop_variable_closure)
     findLoopClosures "loop_variable_closures"
     (fun ln => "Closure captures loop variable at line " ++ toString ln) MVal.natList,
   detectorEntry chk_mutable_call_defaults (fun cs => cs.no_mutable_call_in_defaults)
     findCallDefaults "mutable_call_defaults"
     (fun name => "Function call in default argument in " ++ name) MVal.strList,
   detectorEntry chk_shadowing_builtins (fun cs => cs.no_shadowing_builtins)
     findShadowedBuiltins "shadowed_builtins"
     (fun name => "Shadows builtin: " ++ name) MVal.strList,
   detectorEntry chk_open_without_with (fun cs => cs.no_open_without_context_manager)
     findOpenWithoutWith "open_without_with"
     (fun ln => "open() without context manager at line " ++ toString ln) MVal.natList,
   detectorEntry chk_eval (fun cs => cs.no_eval)
     (fun t => findCallsByName t "eval") "eval_calls"
     (fun ln => "eval() call at line " ++ toString ln) MVal.natList,
   detectorEntry chk_exec (fun cs => cs.no_exec)
     (fun t => findCallsByName t "exec") "exec_calls"
     (fun ln => "exec() call at line " ++ toString ln) MVal.natList,
   detectorEntry chk_unsafe_deserialization (fun cs => cs.no_unsafe_deserialization)
     findUnsafeDeser "unsafe_deserialization"
     (fun ln => "Unsafe deserialization at line " ++ toString ln) MVal.natList,
   detectorEntry chk_unsafe_yaml (fun cs => cs.no_unsafe_yaml)
     findUnsafeYaml "unsafe_yaml"
     (fun ln => "Unsafe yaml.load() without SafeLoader at line " ++ toString ln) MVal.natList,
   detectorEntry chk_shell_true (fun cs => cs.no_shell_true)
     findShellTrue "shell_true"
     (fun ln => "subprocess with shell=True at line " ++ toString ln) MVal.natList,
   detectorEntry chk_hardcoded_secrets (fun cs => cs.no_hardcoded_secrets)
     findHardcodedSecrets "hardcoded_secrets"
     (fun name => "Hardcoded secret in variable: " ++ name) MVal.strList,
   detectorEntry chk_requests_no_timeout (fun cs => cs.no_requests_without_timeout)
     findRequestsNoTimeout "requests_no_timeout"
     (fun ln => "HTTP request without timeout at line " ++ toString ln) MVal.natList,
   thresholdEntry chk_cognitive_complexity (fun cs => cs.max_cognitive_complexity)
     maxCognitiveComplexity "cognitive_complexity"
     (fun a b => "Cognitive complexity " ++ toString a ++ " > max " ++ toString b),
   thresholdEntry chk_local_variables (fun cs => cs.max_local_variables)
     maxLocalVariables "max_local_variables"
     (fun a b => "Function has " ++ toString a ++ " local variables > max " ++ toString b),
   detectorEntry chk_debugger_statements (fun cs => cs.no_debugger_statements)
     findDebuggerStmts "debugger_statements"
     (fun ln => "Debugger statement at line " ++ toString ln) MVal.natList,
   detectorEntry chk_nested_imports (fun cs => cs.no_nested_imports)
     findNestedImports "nested_imports"
     (fun ln => "Nested import at line " ++ toString ln) MVal.natList,
   detectorEntry chk_type_annotations (fun cs => cs.require_type_annotations)
     findUnannotatedFns "unannotated_functions"
     (fun name => "Missing type annotations in " ++ name) MVal.strList]

/-- The checker registry is the `run` column of the metadata table. -/
lemma CHECKERS_eq_registry : CHECKERS = REGISTRY.map CheckerEntry.run := rfl

/-- Every registry entry satisfies the shared checker contract. -/
lemma registry_ok : ∀ e ∈ REGISTRY, EntryOk e := by
  intro e he
  simp only [REGISTRY, List.mem_cons, List.not_mem_nil, or_false] at he
  rcases he with rfl | rfl | rfl | rfl | rfl | rfl | rfl | rfl | rfl | rfl | rfl | rfl |
    rfl | rfl | rfl | rfl | rfl | rfl | rfl | rfl | rfl | rfl | rfl | rfl | rfl | rfl |
    rfl | rfl | rfl | rfl | rfl | rfl | rfl | rfl
  all_goals
    first
      | exact thresholdEntry_ok _ _ _ _ _ rfl
      | exact detectorEntry_ok _ _ _ _ _ _ rfl
      | exact totalLinesEntry_ok
      | exact docstringsEntry_ok
      | exact timeComplexityEntry_ok
      | exact allowedImportsEntry_ok

/-- Folding a list of well-behaved checkers over a parsed source appends
exactly the violation blocks and metric records of the enabled entries. -/
lemma foldlM_entries_ok (l : List CheckerEntry) (hok : ∀ e ∈ l, EntryOk e)
    (src : Source) (t : Py) (ht : src.parsed = .ok t) (cs : ConstraintSet)
    (v : List String) (m : Metrics) :
    (l.map CheckerEntry.run).foldlM (fun st c => c src cs st.1 st.2) (v, m) =
      .ok (v ++ (l.filter fun e => e.enabled cs).flatMap (fun e => e.viols cs src t),
        m ++ (l.filter fun e => e.enabled cs).map (fun e => (e.key, e.metric cs src t))) := by
  induction l generalizing v m with
  | nil => simp [pure, Except.pure]
  | cons e rest ih =>
      obtain ⟨h1, h2, h3, h4, h5⟩ := hok e (List.mem_cons_self e rest) src cs v m
      have hrest : ∀ x ∈ rest, EntryOk x := fun x hx => hok x (List.mem_cons_of_mem e hx)
      cases hen : e.enabled cs with
      | false =>
          rw [List.map_cons, List.foldlM_cons, h1 hen]
          simp only [bind, Except.bind]
          rw [ih hrest v m]
          simp [List.filter_cons, hen]
      | true =>
          rw [List.map_cons, List.foldlM_cons, h2 t ht hen]
          simp only [bind, Except.bind]
          rw [ih hrest _ _]
          simp [List.filter_cons, hen, List.append_assoc]

/-- Folding the checkers over an unparseable source fails with the parse
error as soon as one enabled parsing checker exists in the list. -/
lemma foldlM_entries_error (l : List CheckerEntry) (hok : ∀ e ∈ l, EntryOk e)
    (src : Source) (msg : String) (hsrc : src.parsed = .error msg) (cs : ConstraintSet)
    (hx : ∃ e ∈ l, e.enabled cs = true ∧ e.needsParse = true) :
    ∀ v m, (l.map CheckerEntry.run).foldlM (fun st c => c src cs st.1 st.2) (v, m) =
      .error msg := by
  induction l with
  | nil => rcases hx with ⟨e, he, _⟩; exact absurd he (List.not_mem_nil e)
  | cons e rest ih =>
      intro v m
      obtain ⟨h1, h2, h3, h4, h5⟩ := hok e (List.mem_cons_self e rest) src cs v m
      have hrest : ∀ x ∈ rest, EntryOk x := fun x hx2 => hok x (List.mem_cons_of_mem e hx2)
      by_cases hen : e.enabled cs = true
      · by_cases hp : e.needsParse = true
        · rw [List.map_cons, List.foldlM_cons, h4 msg hsrc hen hp]
          simp [bind, Except.bind]
        · obtain ⟨v2, m2, hrun⟩ := h5 (Bool.not_eq_true _ ▸ hp)
          rw [List.map_cons, List.foldlM_cons, hrun]
          simp only [bind, Except.bind]
          refine ih hrest ?_ v2 m2
          rcases hx with ⟨x, hxl, hxe, hxp⟩
          rcases List.mem_cons.mp hxl with rfl | hxr
          · exact absurd hxp hp
          · exact ⟨x, hxr, hxe, hxp⟩
      · rw [List.map_cons, List.foldlM_cons, h1 (Bool.not_eq_true _ ▸ hen)]
        simp only [bind, Except.bind]
        refine ih hrest ?_ v m
        rcases hx with ⟨x, hxl, hxe, hxp⟩
        rcases List.mem_cons.mp hxl with rfl | hxr
        · exact absurd hxe hen
        · exact ⟨x, hxr, hxe, hxp⟩

/-- The registry entries enabled by a constraint set, in registry order. -/
def enabledEntries (cs : ConstraintSet) : List CheckerEntry :=
  REGISTRY.filter fun e => e.enabled cs

/-- The violations `_evaluate` accumulates on a parsed source: the enabled
entries' violation blocks, concatenated in registry order. -/
def allViolations (cs : ConstraintSet) (src : Source) (t : Py) : List String :=
  (enabledEntries cs).flatMap fun e => e.viols cs src t

/-- The metrics `_evaluate` records on a parsed source: one `(key, value)`
record per enabled entry, in registry order. -/
def allMetrics (cs : ConstraintSet) (src : Source) (t : Py) : Metrics :=
  (enabledEntries cs).map fun e => (e.key, e.metric cs src t)

/-- Characterization of `_evaluate` on a parsed source. -/
lemma evaluate_ok (src : Source) (t : Py) (ht : src.parsed = .ok t) (cs : ConstraintSet) :
    evaluate src cs =
      .ok ⟨(allViolations cs src t).isEmpty, allViolations cs src t, allMetrics cs src t⟩ := by
  unfold evaluate
  rw [CHECKERS_eq_registry, foldlM_entries_ok REGISTRY registry_ok src t ht cs [] []]
  simp [allViolations, allMetrics, enabledEntries, bind, Except.bind]

/-- Characterization of `_evaluate` on an unparseable source when some
enabled checker parses: the `SyntaxError` propagates and no
`ConstraintResult` is produced. -/
lemma evaluate_error (src : Source) (msg : String) (hsrc : src.parsed = .error msg)
    (cs : ConstraintSet) (hx : ∃ e ∈ REGISTRY, e.enabled cs = true ∧ e.needsParse = true) :
    evaluate src cs = .error msg := by
  unfold evaluate
  rw [CHECKERS_eq_registry, foldlM_entries_error REGISTRY registry_ok src msg hsrc cs hx [] []]
  rfl

/-! Profile resolution, translated from `constraint_loader.py`.  YAML
profile data is a partial dict of `ConstraintSet` fields: a `CSPatch` field
is `none` when the key is absent and `some v` when the key is present with
value `v` (itself optional, since a key may be present with a null value).
`ConstraintSet(**data)` on a dumped-and-updated dict is patch application
over the base values; pydantic's numeric floors are not modelled, as for
`ConstraintSet` itself. -/

/-- A partial dict of `ConstraintSet` fields, as found under the
`primary`/`secondary` keys of a profile or function override. -/
structure CSPatch where
  max_cyclomatic_complexity : Option (Option Nat) := none
  max_lines_per_function : Option (Option Nat) := none
  max_total_lines : Option (Option Nat) := none
  max_time_complexity : Option (Option String) := none
  max_parameters : Option (Option Nat) := none
  max_nested_depth : Option (Option Nat) := none
  max_return_statements : Option (Option Nat) := none
  require_docstrings : Option (Option Bool) := none
  no_print_statements : Option (Option Bool) := none
  no_star_imports : Option (Option Bool) := none
  no_mutable_defaults : Option (Option Bool) := none
  no_global_state : Option (Option Bool) := none
  allowed_imports : Option (Option (List String)) := none
  no_bare_except : Option (Option Bool) := none
  no_try_except_pass : Option (Option Bool) := none
  no_return_in_finally : Option (Option Bool) := none
  no_unreachable_code : Option (Option Bool) := none
  no_duplicate_dict_keys : Option (Option Bool) := none
  no_loop_variable_closure : Option (Option Bool) := none
  no_mutable_call_in_defaults : Option (Option Bool) := none
  no_shadowing_builtins : Option (Option Bool) := none
  no_open_without_context_manager : Option (Option Bool) := none
  no_eval : Option (Option Bool) := none
  no_exec : Option (Option Bool) := none
  no_unsafe_deserialization : Option (Option Bool) := none
  no_unsafe_yaml : Option (Option Bool) := none
  no_shell_true : Option (Option Bool) := none
  no_hardcoded_secrets : Option (Option Bool) := none
  no_requests_without_timeout : Option (Option Bool) := none
  max_cognitive_complexity : Option (Option Nat) := none
  max_local_variables : Option (Option Nat) := none
  no_debugger_statements : Option (Option Bool) := none
  no_nested_imports : Option (Option Bool) := none
  require_type_annotations : Option (Option Bool) := none
deriving DecidableEq

/-- `data = base.model_dump(); data.update(patch); ConstraintSet(**data)`:
every field present in the patch replaces the base value, every absent field
keeps it. -/
def mergeCS (base : ConstraintSet) (p : CSPatch) : ConstraintSet where
  max_cyclomatic_complexity := p.max_cyclomatic_complexity.getD base.max_cyclomatic_complexity
  max_lines_per_function := p.max_lines_per_function.getD base.max_lines_per_function
  max_total_lines := p.max_total_lines.getD base.max_total_lines
  max_time_complexity := p.max_time_complexity.getD base.max_time_complexity
  max_parameters := p.max_parameters.getD base.max_parameters
  max_nested_depth := p.max_nested_depth.getD base.max_nested_depth
  max_return_statements := p.max_return_statements.getD base.max_return_statements
  require_docstrings := p.require_docstrings.getD base.require_docstrings
  no_print_statements := p.no_print_statements.getD base.no_print_statements
  no_star_imports := p.no_star_imports.getD base.no_star_imports
  no_mutable_defaults := p.no_mutable_defaults.getD base.no_mutable_defaults
  no_global_state := p.no_global_state.getD base.no_global_state
  allowed_imports := p.allowed_imports.getD base.allowed_imports
  no_bare_except := p.no_bare_except.getD base.no_bare_except
  no_try_except_pass := p.no_try_except_pass.getD base.no_try_except_pass
  no_return_in_finally := p.no_return_in_finally.getD base.no_return_in_finally
  no_unreachable_code := p.no_unreachable_code.getD base.no_unreachable_code
  no_duplicate_dict_keys := p.no_duplicate_dict_keys.getD base.no_duplicate_dict_keys
  no_loop_variable_closure := p.no_loop_variable_closure.getD base.no_loop_variable_closure
  no_mutable_call_in_defaults :=
    p.no_mutable_call_in_defaults.getD base.no_mutable_call_in_defaults
  no_shadowing_builtins := p.no_shadowing_builtins.getD base.no_shadowing_builtins
  no_open_without_context_manager :=
    p.no_open_without_context_manager.getD base.no_open_without_context_manager
  no_eval := p.no_eval.getD base.no_eval
  no_exec := p.no_exec.getD base.no_exec
  no_unsafe_deserialization := p.no_unsafe_deserialization.getD base.no_unsafe_deserialization
  no_unsafe_yaml := p.no_unsafe_yaml.getD base.no_unsafe_yaml
  no_shell_true := p.no_shell_true.getD base.no_shell_true
  no_hardcoded_secrets := p.no_hardcoded_secrets.getD base.no_hardcoded_secrets
  no_requests_without_timeout :=
    p.no_requests_without_timeout.getD base.no_requests_without_timeout
  max_cognitive_complexity := p.max_cognitive_complexity.getD base.max_cognitive_complexity
  max_local_variables := p.max_local_variables.getD base.max_local_variables
  no_debugger_statements := p.no_debugger_statements.getD base.no_debugger_statements
  no_nested_imports := p.no_nested_imports.getD base.no_nested_imports
  require_type_annotations := p.require_type_annotations.getD base.require_type_annotations

/-- `ConstraintSet(**data)` for a partial dict: apply the patch to the
all-defaults (all-`None`) constraint set. -/
def ConstraintSet.fromPatch (p : CSPatch) : ConstraintSet := mergeCS {} p

/-- One profile of the loaded table:
`name -> {primary, secondary, guidance}` with every key optional. -/
structure ProfileData where
  primary : Option CSPatch := none
  secondary : Option CSPatch := none
  guidance : Option (List String) := none

/-- One function-override dict: `primary`/`secondary` are partial field
dicts and `guidance`, when the key is present, may be null. -/
structure FnOverride where
  primary : Option CSPatch := none
  secondary : Option CSPatch := none
  guidance : Option (Option (List String)) := none
deriving DecidableEq

/-- Python falsiness of an override dict (`if not function_overrides`): the
dict has no keys. -/
def FnOverride.isEmptyDict (o : FnOverride) : Bool :=
  o.primary.isNone && o.secondary.isNone && o.guidance.isNone

/-- Python's `list(d)` on an override dict: the list of its present keys.
The override dicts carry at most the keys `primary`, `secondary` and
`guidance`; Python preserves the YAML insertion order of the keys, which an
order-free record cannot, so a fixed field order stands in for it (no
theorem depends on the order). -/
def FnOverride.dictKeys (o : FnOverride) : List String :=
  (if o.primary.isSome then ["primary"] else []) ++
    (if o.secondary.isSome then ["secondary"] else []) ++
    (if o.guidance.isSome then ["guidance"] else [])

/-- The flattened result of `load_profiles`: one dict holding the YAML
`profiles` mapping together with the reserved key `functions`, which
`load_profiles` assigns the override table
(`profiles["functions"] = data.get("functions", {})`) after copying the
profile names.  That assignment overwrites any profile named `functions`,
so the flattened dict never maps `functions` to profile data;
`functions_reserved` records this invariant of `load_profiles`, and
`resolve_constraints` finds the override table under the reserved name
exactly as the Python dict lookup does. -/
structure Profiles where
  table : List (String × ProfileData)
  functions : List (String × FnOverride)
  functions_reserved : "functions" ∉ table.map Prod.fst

/-- The subset of `FunctionSpec` that profile resolution consults. -/
structure FunctionSpec where
  name : String
  constraint_profile : Option String := none

/-- The subset of `ParsedSpec` that profile resolution consults (the eval
and description fields play no part in resolution). -/
structure ParsedSpec where
  name : String
  constraint_profile : String := "default"
  target_files : List String := []
  functions : List FunctionSpec := []

/-- Source `_select_profile_name`: for a function-level resolution, the
first function spec with the requested name and a truthy (non-`None`,
non-empty) profile wins; otherwise the task-level profile. -/
def selectProfileName (spec : ParsedSpec) (functionName : Option String) : String :=
  match functionName with
  | none => spec.constraint_profile
  | some fn =>
      match spec.functions.find? fun fs =>
          fs.name == fn && ((fs.constraint_profile.getD "") != "") with
      | some fs => fs.constraint_profile.getD ""
      | none => spec.constraint_profile

/-- The `base_constraints` built by `resolve_constraints` from the selected
profile's data. -/
def baseConstraints (spec : ParsedSpec) (pd : ProfileData) : TaskConstraints where
  primary := ConstraintSet.fromPatch (pd.primary.getD {})
  secondary := ConstraintSet.fromPatch (pd.secondary.getD {})
  target_files := spec.target_files
  guidance := pd.guidance.getD []

/-- Source `_merge_function_overrides`: dump each gate, update with the
override's partial dict, rebuild; `guidance` is wholesale replaced when the
key is present (a null value replacing with the empty list). -/
def mergeFunctionOverrides (constraints : TaskConstraints) (overrides : FnOverride) :
    TaskConstraints where
  primary := mergeCS constraints.primary (overrides.primary.getD {})
  secondary := mergeCS constraints.secondary (overrides.secondary.getD {})
  target_files := constraints.target_files
  guidance :=
    match overrides.guidance with
    | none => constraints.guidance
    | some g => g.getD []

/-- The `base_constraints` Python builds when the selected profile name is
the reserved key `functions`: `profiles.get("functions")` then yields the
override table itself, which is not `None`, so no error is raised and the
table is used as profile data.  `ConstraintSet(**profile_data.get("primary",
{}))` splats the override dict of a function literally named `primary` (or
`{}` when absent); an override dict's keys are among
`primary`/`secondary`/`guidance`, none of which is a `ConstraintSet` field,
and pydantic v2's default `extra="ignore"` drops unknown keys, so both gates
are always the default all-`None` set.  `guidance=list(profile_data.get
("guidance") or [])` is Python's `list` of the override dict of a function
literally named `guidance`: its key list when present and non-empty, `[]`
otherwise. -/
def functionsTableAsProfile (spec : ParsedSpec) (tbl : List (String × FnOverride)) :
    TaskConstraints where
  primary := {}
  secondary := {}
  target_files := spec.target_files
  guidance :=
    match tbl.lookup "guidance" with
    | none => []
    | some o => if o.isEmptyDict then [] else o.dictKeys

/-- The tail of source `resolve_constraints` shared by every successful
lookup: apply the function override looked up under
`function_name or spec.name` unless it is absent or falsy (Python's empty
string falls back to `spec.name` exactly as `None` does). -/
def applyFunctionOverrides (spec : ParsedSpec) (profiles : Profiles)
    (base : TaskConstraints) (functionName : Option String) : TaskConstraints :=
  let resolvedFunction :=
    match functionName with
    | some fn => if fn != "" then fn else spec.name
    | none => spec.name
  match profiles.functions.lookup resolvedFunction with
  | none => base
  | some o => if o.isEmptyDict then base else mergeFunctionOverrides base o

/-- Source `resolve_constraints`: select the profile name and look it up in
the flattened dict of `load_profiles`.  That dict maps the reserved key
`functions` to the override table (shadowing any profile of that name), so
the lookup of the name `functions` succeeds and silently treats the
override table as profile data; any other name misses exactly when it is
not in the profile table, raising `ValueError` there.  On success the
function override under `function_name or spec.name` is applied unless
absent or falsy. -/
def resolve_constraints (spec : ParsedSpec) (profiles : Profiles)
    (functionName : Option String) : Except String TaskConstraints :=
  let profileName := selectProfileName spec functionName
  if profileName == "functions" then
    .ok (applyFunctionOverrides spec profiles
      (functionsTableAsProfile spec profiles.functions) functionName)
  else
    match profiles.table.lookup profileName with
    | none => .error ("Unknown constraint profile: " ++ profileName)
    | some profileData =>
        .ok (applyFunctionOverrides spec profiles
          (baseConstraints spec profileData) functionName)

/-- A successful association-list lookup puts the key among the mapped
keys. -/
lemma mem_keys_of_lookup {β : Type} (k : String) (v : β)
    (l : List (String × β)) (h : l.lookup k = some v) : k ∈ l.map Prod.fst := by
  induction l with
  | nil => simp [List.lookup] at h
  | cons p rest ih =>
      rw [List.lookup] at h
      by_cases heq : k == p.1
      · simp only [List.map_cons, List.mem_cons]
        exact Or.inl (eq_of_beq heq)
      · rw [Bool.not_eq_true] at heq
        rw [heq] at h
        simp only [List.map_cons, List.mem_cons]
        exact Or.inr (ih h)

/-! Claim theorems. -/

/-- C1: `check_constraints` always evaluates the primary `ConstraintSet`;
when the primary result has `passed = False` the returned secondary result
is exactly `ConstraintResult(passed=True, violations=[], metrics={})`, no
secondary checker runs and the secondary `ConstraintSet` has no influence
on either returned result (the equation holds for every secondary set);
when the primary result has `passed = True` the secondary result is the
ordinary evaluation of the secondary set on the same source. -/
theorem c1_two_gate_short_circuit (src : Source) (tc : TaskConstraints)
    (pr : ConstraintResult) (hp : evaluate src tc.primary = .ok pr) :
    (pr.passed = false →
      ∀ (scs : ConstraintSet) (tf g : List String),
        check_constraints src ⟨tc.primary, scs, tf, g⟩ = .ok (pr, ⟨true, [], []⟩)) ∧
    (pr.passed = true →
      check_constraints src tc = (evaluate src tc.secondary).map fun sr => (pr, sr)) := by
  constructor
  · intro hpass scs tf g
    simp [check_constraints, hp, bind, Except.bind, hpass]
  · intro hpass
    simp only [check_constraints, hp, bind, Except.bind, hpass, Bool.not_true]
    cases hs : evaluate src tc.secondary <;> simp [Except.map]

/-- C1 witness: a concrete source on which a primary gate with
`max_total_lines = 0` fails, so the secondary result is vacuous for an
arbitrary failing secondary set. -/
theorem c1_two_gate_short_circuit_witness :
    check_constraints ⟨2, .ok (.Module [])⟩
        ⟨{ max_total_lines := some 0 }, { max_total_lines := some 1 }, [], []⟩ =
      .ok (⟨false, ["Total lines 2 > max 0"], [("total_lines", .nat 2)]⟩,
        ⟨true, [], []⟩) := by
  exact
    (c1_two_gate_short_circuit ⟨2, .ok (.Module [])⟩
      ⟨{ max_total_lines := some 0 }, { max_total_lines := some 1 }, [], []⟩
      ⟨false, ["Total lines 2 > max 0"], [("total_lines", .nat 2)]⟩ rfl).1
      rfl { max_total_lines := some 1 } [] []

/-- C2: for the `ConstraintSet` with every field `None` and every
syntactically valid source, `_evaluate` returns exactly
`passed=True, violations=[], metrics={}`; every unset field short-circuits
its checker, which touches neither the violations nor the metrics
accumulator. -/
theorem c2_all_none_vacuous (src : Source) (t : Py) (_ht : src.parsed = .ok t)
    (cs : ConstraintSet) (hcs : cs = {}) :
    evaluate src cs = .ok ⟨true, [], []⟩ ∧
      ∀ e ∈ REGISTRY, e.enabled cs = false ∧
        ∀ v m, e.run src cs v m = .ok (v, m) := by
  subst hcs
  constructor
  · rfl
  · intro e he
    have hok := registry_ok e he
    have hen : e.enabled {} = false := by
      simp only [REGISTRY, List.mem_cons, List.not_mem_nil, or_false] at he
      rcases he with rfl | rfl | rfl | rfl | rfl | rfl | rfl | rfl | rfl | rfl | rfl |
        rfl | rfl | rfl | rfl | rfl | rfl | rfl | rfl | rfl | rfl | rfl | rfl | rfl |
        rfl | rfl | rfl | rfl | rfl | rfl | rfl | rfl | rfl | rfl <;> rfl
    exact ⟨hen, fun v m => ((hok src {} v m).1 hen)⟩

/-- C2 witness: the empty module as a parsed source. -/
theorem c2_all_none_vacuous_witness :
    evaluate ⟨0, .ok (.Module [])⟩ {} = .ok ⟨true, [], []⟩ :=
  (c2_all_none_vacuous ⟨0, .ok (.Module [])⟩ (.Module []) rfl {} rfl).1

/-- C3 counterexample: the claim says an unparseable source never yields a
`ConstraintResult` for any `ConstraintSet`, but with both gates all-`None`
no checker ever parses, and `check_constraints` happily returns two
`ConstraintResult`s for a source whose parse failed. -/
theorem c3_counterexample :
    check_constraints ⟨1, .error "invalid syntax (<unknown>, line 1)"⟩ ⟨{}, {}, [], []⟩ =
      .ok (⟨true, [], []⟩, ⟨true, [], []⟩) := rfl

/-- C3 amended: when the evaluated `ConstraintSet` enables at least one
parsing checker (every checker except `max_total_lines` parses), an
unparseable source makes `_evaluate` fail fast with the `SyntaxError` of
`ast.parse` — the distinct unparseable-source error — performing no partial
analysis and returning no `ConstraintResult`; `check_constraints`
propagates the same error. -/
theorem c3_parse_failure_amended (src : Source) (msg : String)
    (hsrc : src.parsed = .error msg) (cs : ConstraintSet)
    (hx : ∃ e ∈ REGISTRY, e.enabled cs = true ∧ e.needsParse = true) :
    evaluate src cs = .error msg ∧
      ∀ (scs : ConstraintSet) (tf g : List String),
        check_constraints src ⟨cs, scs, tf, g⟩ = .error msg := by
  have heval := evaluate_error src msg hsrc cs hx
  refine ⟨heval, fun scs tf g => ?_⟩
  simp [check_constraints, heval, bind, Except.bind]

/-- C3 amended witness: a failing parse with cyclomatic complexity
enabled. -/
theorem c3_parse_failure_amended_witness :
    evaluate ⟨1, .error "invalid syntax"⟩ { max_cyclomatic_complexity := some 5 } =
      .error "invalid syntax" :=
  (c3_parse_failure_amended ⟨1, .error "invalid syntax"⟩ "invalid syntax" rfl
    { max_cyclomatic_complexity := some 5 }
    ⟨thresholdEntry chk_cyclomatic_complexity (fun cs => cs.max_cyclomatic_complexity)
        maxCyclomaticComplexity "cyclomatic_complexity"
        (fun a b => "Cyclomatic complexity " ++ toString a ++ " > max " ++ toString b),
      List.mem_cons_self _ _, rfl, rfl⟩).1

/-- Any element of a `foldl max` accumulation bounds the initial value. -/
lemma le_foldl_max (l : List Nat) (a : Nat) : a ≤ l.foldl max a := by
  induction l generalizing a with
  | nil => exact Nat.le_refl a
  | cons b rest ih => exact Nat.le_trans (Nat.le_max_left a b) (ih (max a b))

/-- C7: the cyclomatic-complexity metric is at least 1 for every
syntactically valid source; a source containing zero function definitions
(including the empty file) reports exactly 1, never zero and never an
error. -/
theorem c7_cyclomatic_at_least_one (tree : Py) :
    1 ≤ maxCyclomaticComplexity tree ∧
      (tree.walk.filter Py.isFuncDef = [] → maxCyclomaticComplexity tree = 1) := by
  constructor
  · unfold maxCyclomaticComplexity
    cases hb : ccVisitComplexities tree with
    | nil => simp
    | cons x xs =>
        have hx : x ∈ ccVisitComplexities tree := hb ▸ List.mem_cons_self x xs
        have h1 : 1 ≤ x := by
          unfold ccVisitComplexities at hx
          obtain ⟨f, _, hfx⟩ := List.mem_map.mp hx
          omega
        simp only [hb, List.isEmpty_cons, Bool.false_eq_true, if_false]
        calc 1 ≤ x := h1
          _ ≤ max 0 x := Nat.le_max_right 0 x
          _ ≤ (x :: xs).foldl max 0 := by
              rw [List.foldl_cons]; exact le_foldl_max xs (max 0 x)
  · intro hempty
    unfold maxCyclomaticComplexity ccVisitComplexities
    simp [hempty]

/-- C7 witness: the empty module. -/
theorem c7_cyclomatic_at_least_one_witness :
    maxCyclomaticComplexity (.Module []) = 1 :=
  (c7_cyclomatic_at_least_one (.Module [])).2 (by rw [Py.walk_eq]; rfl)

/-- C9 counterexample: the requested profile name `functions` is not a
profile of the loaded table (which holds only `default`), yet resolution
does not fail: `load_profiles` stores the override table under the key
`functions` of the very dict `resolve_constraints` searches, so the lookup
finds the override table and silently returns a default-constructed
`ConstraintSet` pair — here both gates all-`None` and empty guidance —
contradicting both halves of the claim. -/
theorem c9_counterexample :
    "functions" ∉ ([("default", ({} : ProfileData))].map Prod.fst) ∧
    resolve_constraints ⟨"task", "functions", ["a.py"], []⟩
        ⟨[("default", {})], [("f1", { guidance := some (some ["g"]) })], by decide⟩ none =
      .ok ⟨{}, {}, ["a.py"], []⟩ :=
  ⟨by decide, rfl⟩

/-- C9 (amended): resolving constraints with a selected profile name other
than the reserved key `functions` that is not present in the profile table
fails with an error naming the requested profile — no substitution, no
default; the reserved name `functions`, always present in the flattened
dict built by `load_profiles`, instead resolves without error, treating the
override table as profile data (default all-`None` gates as the base,
before any function override). -/
theorem c9_unknown_profile_amended (spec : ParsedSpec) (profiles : Profiles)
    (functionName : Option String) :
    (selectProfileName spec functionName ≠ "functions" →
      profiles.table.lookup (selectProfileName spec functionName) = none →
      resolve_constraints spec profiles functionName =
        .error ("Unknown constraint profile: " ++ selectProfileName spec functionName)) ∧
    (selectProfileName spec functionName = "functions" →
      resolve_constraints spec profiles functionName =
        .ok (applyFunctionOverrides spec profiles
          (functionsTableAsProfile spec profiles.functions) functionName)) := by
  constructor
  · intro hname h
    have hb : (selectProfileName spec functionName == "functions") = false := by
      simp [hname]
    simp [resolve_constraints, hb, h]
  · intro hname
    simp [resolve_constraints, hname]

/-- C9 witness: an empty profile table with the profile name `strict`
requested errors; with the reserved name `functions` requested the same
table resolves silently to the all-default constraints. -/
theorem c9_unknown_profile_amended_witness :
    (resolve_constraints ⟨"task", "strict", [], []⟩ ⟨[], [], by decide⟩ none =
      .error "Unknown constraint profile: strict") ∧
    (resolve_constraints ⟨"task", "functions", [], []⟩ ⟨[], [], by decide⟩ none =
      .ok (applyFunctionOverrides ⟨"task", "functions", [], []⟩ ⟨[], [], by decide⟩
        (functionsTableAsProfile ⟨"task", "functions", [], []⟩ []) none)) :=
  ⟨(c9_unknown_profile_amended ⟨"task", "strict", [], []⟩ ⟨[], [], by decide⟩ none).1
      (by decide) rfl,
    (c9_unknown_profile_amended ⟨"task", "functions", [], []⟩ ⟨[], [], by decide⟩ none).2 rfl⟩

/-- C10: task-level resolution (`function_name=None`) still consults the
function-override table under the task's own `spec.name`; when a non-empty
override entry is found there, the resolved constraints are exactly
`_merge_function_overrides` applied to the task-level base constraints, as
for a function-level override. -/
theorem c10_task_level_override (spec : ParsedSpec) (profiles : Profiles)
    (pd : ProfileData) (o : FnOverride)
    (hpd : profiles.table.lookup spec.constraint_profile = some pd)
    (ho : profiles.functions.lookup spec.name = some o)
    (hne : o.isEmptyDict = false) :
    resolve_constraints spec profiles none =
      .ok (mergeFunctionOverrides (baseConstraints spec pd) o) := by
  have hb : (spec.constraint_profile == "functions") = false := by
    by_contra hx
    rw [Bool.not_eq_false, beq_iff_eq] at hx
    rw [hx] at hpd
    exact profiles.functions_reserved (mem_keys_of_lookup _ _ _ hpd)
  simp [resolve_constraints, selectProfileName, hb, hpd, applyFunctionOverrides, ho, hne]

/-- C10 witness: a one-profile table whose `functions` section overrides the
spec's own name with a guidance replacement. -/
theorem c10_task_level_override_witness :
    resolve_constraints ⟨"f1", "default", [], []⟩
        ⟨[("default", {})], [("f1", { guidance := some (some ["use recursion"]) })],
          by decide⟩ none =
      .ok (mergeFunctionOverrides (baseConstraints ⟨"f1", "default", [], []⟩ {})
        { guidance := some (some ["use recursion"]) }) :=
  c10_task_level_override ⟨"f1", "default", [], []⟩
    ⟨[("default", {})], [("f1", { guidance := some (some ["use recursion"]) })], by decide⟩
    {} { guidance := some (some ["use recursion"]) } rfl rfl rfl

/-- The 34 metric keys of the registry are pairwise distinct. -/
lemma registry_keys_nodup : (REGISTRY.map CheckerEntry.key).Nodup := by decide

/-- C8: on every syntactically valid source, each checker whose governing
field is set (enabled, in the spec's sense: non-`None`, and `True` for the
boolean toggles) records its metric in the metrics mapping regardless of
whether the check passes or fails, and its violation block is empty exactly
when the check does not fail; checkers whose field is unset are omitted
from the metrics mapping entirely. -/
theorem c8_metrics_and_violations (src : Source) (t : Py) (cs : ConstraintSet)
    (r : ConstraintResult) (ht : src.parsed = .ok t)
    (hr : evaluate src cs = .ok r) :
    r.metrics = allMetrics cs src t ∧
    r.violations = allViolations cs src t ∧
    (∀ e ∈ REGISTRY, e.enabled cs = true → (e.key, e.metric cs src t) ∈ r.metrics) ∧
    (∀ e ∈ REGISTRY, e.enabled cs = false → e.key ∉ r.metrics.map Prod.fst) ∧
    (∀ e ∈ REGISTRY, e.viols cs src t = [] ↔ e.fails cs src t = false) := by
  have heval := evaluate_ok src t ht cs
  rw [hr] at heval
  have hrm : r = ⟨(allViolations cs src t).isEmpty, allViolations cs src t,
      allMetrics cs src t⟩ := Except.ok.inj heval
  subst hrm
  refine ⟨rfl, rfl, ?_, ?_, ?_⟩
  · intro e he hen
    exact List.mem_map.mpr ⟨e, List.mem_filter.mpr ⟨he, hen⟩, rfl⟩
  · intro e he hen hmem
    simp only [allMetrics, enabledEntries, List.map_map] at hmem
    obtain ⟨e2, he2, hkey⟩ := List.mem_map.mp hmem
    have he2r := List.mem_filter.mp he2
    have : e2 = e :=
      List.inj_on_of_nodup_map registry_keys_nodup he2r.1 he hkey
    rw [this] at he2r
    rw [he2r.2] at hen
    exact Bool.true_eq_false ▸ hen
  · intro e he
    exact (registry_ok e he src cs [] []).2.2.1 t

/-- C8 witness: a source on which the enabled `max_total_lines` check
fails; its metric is recorded, and the result matches the registry
characterization. -/
theorem c8_metrics_and_violations_witness :
    ("total_lines", MVal.nat 3) ∈
      (⟨false, ["Total lines 3 > max 1"],
        [("total_lines", MVal.nat 3)]⟩ : ConstraintResult).metrics := by
  have h := c8_metrics_and_violations ⟨3, .ok (.Module [])⟩ (.Module [])
    { max_total_lines := some 1 }
    ⟨false, ["Total lines 3 > max 1"], [("total_lines", .nat 3)]⟩ rfl (by rfl)
  exact h.2.2.1 totalLinesEntry (by simp [REGISTRY]) rfl

/-- The docstring entry sits in the registry. -/
lemma docstringsEntry_mem_registry : docstringsEntry ∈ REGISTRY := by
  unfold REGISTRY
  exact List.mem_cons_of_mem _ (List.mem_cons_of_mem _
    (List.mem_cons_of_mem _ (List.mem_cons_self _ _)))

/-- Any docstring issue of a walked definition node lands in the violations
of an evaluation with `require_docstrings=True`, and the result fails. -/
lemma docstring_issue_in_result (src : Source) (t : Py) (cs : ConstraintSet)
    (r : ConstraintResult) (f : Py) (msg : String)
    (ht : src.parsed = .ok t) (hreq : cs.require_docstrings = some true)
    (hr : evaluate src cs = .ok r) (hf : f ∈ t.walk) (hdef : f.isDefOrClass = true)
    (hiss : getDocstringIssue f = some msg) :
    msg ∈ r.violations ∧ r.passed = false := by
  have heval := evaluate_ok src t ht cs
  rw [hr] at heval
  have hrm := Except.ok.inj heval
  subst hrm
  have hmsg : msg ∈ checkDocstrings t :=
    List.mem_filterMap.mpr ⟨f, hf, by rw [hdef]; simpa using hiss⟩
  have hment : docstringsEntry ∈ enabledEntries cs :=
    List.mem_filter.mpr ⟨docstringsEntry_mem_registry, by simp [docstringsEntry, hreq]⟩
  have hmem : msg ∈ allViolations cs src t := by
    refine List.mem_flatMap.mpr ⟨docstringsEntry, hment, ?_⟩
    simp only [docstringsEntry]
    rw [hreq]
    exact hmsg
  refine ⟨hmem, ?_⟩
  cases hav : allViolations cs src t with
  | nil => rw [hav] at hmem; exact absurd hmem (List.not_mem_nil msg)
  | cons a as => simp [hav]

/-- C5: with `require_docstrings` set, a function whose docstring is present
but lacks the substring `"Args:"` while having at least one non-`self`/`cls`
positional parameter is reported as `"{name}: missing Args section in
docstring"` and the result fails, regardless of every other enabled check;
likewise an Args-compliant function whose walk contains a `return` with a
value must contain `"Returns:"`; classes only require docstring presence. -/
theorem c5_docstring_sections :
    (∀ (src : Source) (t : Py) (cs : ConstraintSet) (r : ConstraintResult)
      (name : String) (args : PyArguments) (body : List Py) (dec : List Py)
      (ret : Option Py) (l e : Nat) (d : String),
      src.parsed = .ok t → cs.require_docstrings = some true →
      evaluate src cs = .ok r →
      Py.FunctionDef name args body dec ret l e ∈ t.walk →
      docstringOf body = some d →
      0 < (args.args.filter fun a => a.arg != "self" && a.arg != "cls").length →
      strContains d "Args:" = false →
      (name ++ ": missing Args section in docstring") ∈ r.violations ∧
        r.passed = false) ∧
    (∀ (src : Source) (t : Py) (cs : ConstraintSet) (r : ConstraintResult)
      (name : String) (args : PyArguments) (body : List Py) (dec : List Py)
      (ret : Option Py) (l e : Nat) (d : String),
      src.parsed = .ok t → cs.require_docstrings = some true →
      evaluate src cs = .ok r →
      Py.FunctionDef name args body dec ret l e ∈ t.walk →
      docstringOf body = some d →
      ((args.args.filter fun a => a.arg != "self" && a.arg != "cls").length = 0 ∨
        strContains d "Args:" = true) →
      (Py.FunctionDef name args body dec ret l e).hasReturnValue = true →
      strContains d "Returns:" = false →
      (name ++ ": missing Returns section in docstring") ∈ r.violations ∧
        r.passed = false) ∧
    (∀ (name : String) (bases body dec : List Py) (l : Nat) (d : String),
      docstringOf body = some d →
      getDocstringIssue (.ClassDef name bases body dec l) = none) := by
  refine ⟨?_, ?_, ?_⟩
  · intro src t cs r name args body dec ret l e d ht hreq hr hf hdoc hargs hnoargs
    refine docstring_issue_in_result src t cs r _ _ ht hreq hr hf rfl ?_
    simp [getDocstringIssue, hdoc, hargs, hnoargs]
  · intro src t cs r name args body dec ret l e d ht hreq hr hf hdoc hargsok hret hnoret
    refine docstring_issue_in_result src t cs r _ _ ht hreq hr hf rfl ?_
    rcases hargsok with hlen | hcont
    · simp [getDocstringIssue, hdoc, hlen, hret, hnoret]
    · simp [getDocstringIssue, hdoc, hcont, hret, hnoret]
  · intro name bases body dec l d hdoc
    simp [getDocstringIssue, hdoc]

/-- C5 witness: `def f(x):` with docstring `"doc"` (no `Args:` section),
checked with `require_docstrings=True`, is reported and fails. -/
theorem c5_docstring_sections_witness :
    ("f: missing Args section in docstring") ∈
        (⟨false, ["f: missing Args section in docstring"],
          [("missing_docstrings",
            MVal.strList ["f: missing Args section in docstring"])]⟩ :
          ConstraintResult).violations ∧
      (⟨false, ["f: missing Args section in docstring"],
        [("missing_docstrings",
          MVal.strList ["f: missing Args section in docstring"])]⟩ :
        ConstraintResult).passed = false := by
  have hw : Py.walk (.Module [.FunctionDef "f" (.mk [.mk "x" none] none [] [] none [])
      [.ExprStmt (.Constant (.strC "doc") 2) 2] [] none 1 2]) =
      [.Module [.FunctionDef "f" (.mk [.mk "x" none] none [] [] none [])
        [.ExprStmt (.Constant (.strC "doc") 2) 2] [] none 1 2],
       .FunctionDef "f" (.mk [.mk "x" none] none [] [] none [])
        [.ExprStmt (.Constant (.strC "doc") 2) 2] [] none 1 2,
       .ExprStmt (.Constant (.strC "doc") 2) 2,
       .Constant (.strC "doc") 2] := by
    simp only [Py.walk_eq, Py.children, PyArguments.childExprs,
      PyArguments.args, PyArguments.vararg, PyArguments.kwonlyargs,
      PyArguments.kwDefaults, PyArguments.kwarg, PyArguments.defaults, PyArg.annot,
      List.flatMap_cons, List.flatMap_nil, List.filterMap_cons, List.filterMap_nil,
      List.append_nil, List.nil_append, List.cons_append, Option.toList_none,
      Option.toList_some, Option.none_bind, Option.some_bind]
  have hcd : checkDocstrings (.Module [.FunctionDef "f" (.mk [.mk "x" none] none [] [] none [])
      [.ExprStmt (.Constant (.strC "doc") 2) 2] [] none 1 2]) =
      ["f: missing Args section in docstring"] := by
    unfold checkDocstrings
    rw [hw]
    rfl
  have hr : evaluate ⟨2, .ok (.Module [.FunctionDef "f" (.mk [.mk "x" none] none [] [] none [])
        [.ExprStmt (.Constant (.strC "doc") 2) 2] [] none 1 2])⟩
        { require_docstrings := some true } =
      .ok ⟨false, ["f: missing Args section in docstring"],
        [("missing_docstrings",
          MVal.strList ["f: missing Args section in docstring"])]⟩ := by
    rw [evaluate_ok _ (.Module [.FunctionDef "f" (.mk [.mk "x" none] none [] [] none [])
      [.ExprStmt (.Constant (.strC "doc") 2) 2] [] none 1 2]) rfl
      { require_docstrings := some true }]
    have hee : enabledEntries { require_docstrings := some true } = [docstringsEntry] := rfl
    have hav : allViolations { require_docstrings := some true }
        ⟨2, .ok (.Module [.FunctionDef "f" (.mk [.mk "x" none] none [] [] none [])
          [.ExprStmt (.Constant (.strC "doc") 2) 2] [] none 1 2])⟩
        (.Module [.FunctionDef "f" (.mk [.mk "x" none] none [] [] none [])
          [.ExprStmt (.Constant (.strC "doc") 2) 2] [] none 1 2]) =
        ["f: missing Args section in docstring"] := by
      unfold allViolations
      rw [hee]
      simp only [List.flatMap_cons, List.flatMap_nil, List.append_nil, docstringsEntry]
      exact hcd
    have ham : allMetrics { require_docstrings := some true }
        ⟨2, .ok (.Module [.FunctionDef "f" (.mk [.mk "x" none] none [] [] none [])
          [.ExprStmt (.Constant (.strC "doc") 2) 2] [] none 1 2])⟩
        (.Module [.FunctionDef "f" (.mk [.mk "x" none] none [] [] none [])
          [.ExprStmt (.Constant (.strC "doc") 2) 2] [] none 1 2]) =
        [("missing_docstrings",
          MVal.strList ["f: missing Args section in docstring"])] := by
      unfold allMetrics
      rw [hee]
      simp only [List.map_cons, List.map_nil, docstringsEntry]
      rw [hcd]
    rw [hav, ham]
    rfl
  exact c5_docstring_sections.1
    ⟨2, .ok (.Module [.FunctionDef "f" (.mk [.mk "x" none] none [] [] none [])
      [.ExprStmt (.Constant (.strC "doc") 2) 2] [] none 1 2])⟩
    (.Module [.FunctionDef "f" (.mk [.mk "x" none] none [] [] none [])
      [.ExprStmt (.Constant (.strC "doc") 2) 2] [] none 1 2])
    { require_docstrings := some true }
    ⟨false, ["f: missing Args section in docstring"],
      [("missing_docstrings",
        MVal.strList ["f: missing Args section in docstring"])]⟩
    "f" (.mk [.mk "x" none] none [] [] none [])
    [.ExprStmt (.Constant (.strC "doc") 2) 2] [] none 1 2 "doc"
    rfl rfl hr
    (hw ▸ List.mem_cons_of_mem _ (List.mem_cons_self _ _))
    rfl (by decide) (by decide)

/-- The parse of `for i in range(10): funcs.append(lambda: i)`. -/
def loopClosureExample : Py :=
  .Module [.For (.Name "i" .store 1)
    (.Call (.Name "range" .load 1) [.Constant (.intC 10) 1] [] 1)
    [.ExprStmt (.Call (.Attribute (.Name "funcs" .load 1) "append" 1)
      [.Lambda (.mk [] none [] [] none []) (.Name "i" .load 1) 1] [] 1) 1] [] 1]

/-- The parse of `for i in range(10): funcs.append(lambda i=i: i)`. -/
def loopClosureDefaultExample : Py :=
  .Module [.For (.Name "i" .store 1)
    (.Call (.Name "range" .load 1) [.Constant (.intC 10) 1] [] 1)
    [.ExprStmt (.Call (.Attribute (.Name "funcs" .load 1) "append" 1)
      [.Lambda (.mk [.mk "i" none] none [] [] none [.Name "i" .load 1])
        (.Name "i" .load 1) 1] [] 1) 1] [] 1]

/-- The walk of the `for` statement of `loopClosureExample`. -/
lemma loopClosureExample_for_walk :
    Py.walk (.For (.Name "i" .store 1)
      (.Call (.Name "range" .load 1) [.Constant (.intC 10) 1] [] 1)
      [.ExprStmt (.Call (.Attribute (.Name "funcs" .load 1) "append" 1)
        [.Lambda (.mk [] none [] [] none []) (.Name "i" .load 1) 1] [] 1) 1] [] 1) =
      [.For (.Name "i" .store 1)
        (.Call (.Name "range" .load 1) [.Constant (.intC 10) 1] [] 1)
        [.ExprStmt (.Call (.Attribute (.Name "funcs" .load 1) "append" 1)
          [.Lambda (.mk [] none [] [] none []) (.Name "i" .load 1) 1] [] 1) 1] [] 1,
       .Name "i" .store 1,
       .Call (.Name "range" .load 1) [.Constant (.intC 10) 1] [] 1,
       .Name "range" .load 1,
       .Constant (.intC 10) 1,
       .ExprStmt (.Call (.Attribute (.Name "funcs" .load 1) "append" 1)
         [.Lambda (.mk [] none [] [] none []) (.Name "i" .load 1) 1] [] 1) 1,
       .Call (.Attribute (.Name "funcs" .load 1) "append" 1)
         [.Lambda (.mk [] none [] [] none []) (.Name "i" .load 1) 1] [] 1,
       .Attribute (.Name "funcs" .load 1) "append" 1,
       .Name "funcs" .load 1,
       .Lambda (.mk [] none [] [] none []) (.Name "i" .load 1) 1,
       .Name "i" .load 1] := by
  simp only [Py.walk_eq, Py.children, PyArguments.childExprs,
    PyArguments.args, PyArguments.vararg, PyArguments.kwonlyargs,
    PyArguments.kwDefaults, PyArguments.kwarg, PyArguments.defaults, PyArg.annot,
    List.flatMap_cons, List.flatMap_nil, List.filterMap_cons, List.filterMap_nil,
    List.map_cons, List.map_nil, PyKeyword.value,
    List.append_nil, List.nil_append, List.cons_append, Option.toList_none,
    Option.toList_some, Option.none_bind, Option.some_bind]

/-- The walk of the `for` statement of `loopClosureDefaultExample`. -/
lemma loopClosureDefaultExample_for_walk :
    Py.walk (.For (.Name "i" .store 1)
      (.Call (.Name "range" .load 1) [.Constant (.intC 10) 1] [] 1)
      [.ExprStmt (.Call (.Attribute (.Name "funcs" .load 1) "append" 1)
        [.Lambda (.mk [.mk "i" none] none [] [] none [.Name "i" .load 1])
          (.Name "i" .load 1) 1] [] 1) 1] [] 1) =
      [.For (.Name "i" .store 1)
        (.Call (.Name "range" .load 1) [.Constant (.intC 10) 1] [] 1)
        [.ExprStmt (.Call (.Attribute (.Name "funcs" .load 1) "append" 1)
          [.Lambda (.mk [.mk "i" none] none [] [] none [.Name "i" .load 1])
            (.Name "i" .load 1) 1] [] 1) 1] [] 1,
       .Name "i" .store 1,
       .Call (.Name "range" .load 1) [.Constant (.intC 10) 1] [] 1,
       .Name "range" .load 1,
       .Constant (.intC 10) 1,
       .ExprStmt (.Call (.Attribute (.Name "funcs" .load 1) "append" 1)
         [.Lambda (.mk [.mk "i" none] none [] [] none [.Name "i" .load 1])
           (.Name "i" .load 1) 1] [] 1) 1,
       .Call (.Attribute (.Name "funcs" .load 1) "append" 1)
         [.Lambda (.mk [.mk "i" none] none [] [] none [.Name "i" .load 1])
           (.Name "i" .load 1) 1] [] 1,
       .Attribute (.Name "funcs" .load 1) "append" 1,
       .Name "funcs" .load 1,
       .Lambda (.mk [.mk "i" none] none [] [] none [.Name "i" .load 1])
         (.Name "i" .load 1) 1,
       .Name "i" .load 1,
       .Name "i" .load 1] := by
  simp only [Py.walk_eq, Py.children, PyArguments.childExprs,
    PyArguments.args, PyArguments.vararg, PyArguments.kwonlyargs,
    PyArguments.kwDefaults, PyArguments.kwarg, PyArguments.defaults, PyArg.annot,
    List.flatMap_cons, List.flatMap_nil, List.filterMap_cons, List.filterMap_nil,
    List.map_cons, List.map_nil, PyKeyword.value,
    List.append_nil, List.nil_append, List.cons_append, Option.toList_none,
    Option.toList_some, Option.none_bind, Option.some_bind]

/-- The walk of the lambda of `loopClosureExample`. -/
lemma loopClosureExample_lambda_walk :
    Py.walk (.Lambda (.mk [] none [] [] none []) (.Name "i" .load 1) 1) =
      [.Lambda (.mk [] none [] [] none []) (.Name "i" .load 1) 1,
       .Name "i" .load 1] := by
  simp only [Py.walk_eq, Py.children, PyArguments.childExprs,
    PyArguments.args, PyArguments.vararg, PyArguments.kwonlyargs,
    PyArguments.kwDefaults, PyArguments.kwarg, PyArguments.defaults, PyArg.annot,
    List.flatMap_cons, List.flatMap_nil, List.filterMap_cons, List.filterMap_nil,
    List.append_nil, List.nil_append, List.cons_append, Option.toList_none,
    Option.toList_some, Option.none_bind, Option.some_bind]

/-- The walk of the defaulted lambda of `loopClosureDefaultExample`. -/
lemma loopClosureDefaultExample_lambda_walk :
    Py.walk (.Lambda (.mk [.mk "i" none] none [] [] none [.Name "i" .load 1])
        (.Name "i" .load 1) 1) =
      [.Lambda (.mk [.mk "i" none] none [] [] none [.Name "i" .load 1])
        (.Name "i" .load 1) 1,
       .Name "i" .load 1,
       .Name "i" .load 1] := by
  simp only [Py.walk_eq, Py.children, PyArguments.childExprs,
    PyArguments.args, PyArguments.vararg, PyArguments.kwonlyargs,
    PyArguments.kwDefaults, PyArguments.kwarg, PyArguments.defaults, PyArg.annot,
    List.flatMap_cons, List.flatMap_nil, List.filterMap_cons, List.filterMap_nil,
    List.append_nil, List.nil_append, List.cons_append, Option.toList_none,
    Option.toList_some, Option.none_bind, Option.some_bind]

/-- The plain lambda closes over the loop variable `i`. -/
lemma loopClosureExample_lambda_uses :
    closureUsesLoopVar (.Lambda (.mk [] none [] [] none []) (.Name "i" .load 1) 1)
      ["i"] = true := by
  unfold closureUsesLoopVar
  rw [loopClosureExample_lambda_walk]
  rfl

/-- The defaulted lambda does not close over the loop variable `i`. -/
lemma loopClosureDefaultExample_lambda_uses :
    closureUsesLoopVar (.Lambda (.mk [.mk "i" none] none [] [] none [.Name "i" .load 1])
        (.Name "i" .load 1) 1)
      ["i"] = false := by
  unfold closureUsesLoopVar
  rw [loopClosureDefaultExample_lambda_walk]
  rfl

/-- C6: the loop-variable-closure detector flags every lambda or nested
function within a `for` loop's body that references a name bound by the
loop target and does not carry it as a parameter default; in particular
`for i in range(10): funcs.append(lambda: i)` yields exactly one flagged
location and `for i in range(10): funcs.append(lambda i=i: i)` yields
none. -/
theorem c6_loop_variable_closures :
    (∀ (tree target iter : Py) (body orelse : List Py) (l : Nat) (s c : Py),
      Py.For target iter body orelse l ∈ tree.walk →
      s ∈ body → c ∈ s.walk → c.isClosure = true →
      closureUsesLoopVar c (extractTargetNames target) = true →
      c.lineno ∈ findLoopClosures tree) ∧
    findLoopClosures loopClosureExample = [1] ∧
    findLoopClosures loopClosureDefaultExample = [] := by
  refine ⟨?_, ?_, ?_⟩
  · intro tree target iter body orelse l s c hfor hs hcw hcl huse
    have hchild : s ∈ (Py.For target iter body orelse l).children := by
      simp only [Py.children, List.mem_cons]
      right; right
      exact List.mem_append_left _ hs
    have hctail : c ∈ (Py.For target iter body orelse l).walk.tail := by
      rw [Py.walk_eq]
      simp only [List.tail_cons]
      exact List.mem_flatMap.mpr ⟨s, hchild, hcw⟩
    refine List.mem_flatMap.mpr ⟨Py.For target iter body orelse l, hfor, ?_⟩
    exact List.mem_filterMap.mpr ⟨c, hctail, by simp [hcl, huse]⟩
  · have hw1 : Py.walk loopClosureExample =
        loopClosureExample ::
          Py.walk (.For (.Name "i" .store 1)
            (.Call (.Name "range" .load 1) [.Constant (.intC 10) 1] [] 1)
            [.ExprStmt (.Call (.Attribute (.Name "funcs" .load 1) "append" 1)
              [.Lambda (.mk [] none [] [] none []) (.Name "i" .load 1) 1] [] 1) 1] [] 1) := by
      rw [loopClosureExample, Py.walk_eq]
      simp only [Py.children, List.flatMap_cons, List.flatMap_nil, List.append_nil]
    unfold findLoopClosures
    rw [hw1, loopClosureExample_for_walk]
    simp only [List.flatMap_cons, List.flatMap_nil, extractTargetNames,
      loopClosureExample_for_walk, List.tail_cons, List.filterMap_cons, Py.isClosure,
      Bool.false_and, Bool.true_and, if_false, loopClosureExample_lambda_uses, if_true,
      Py.lineno, List.append_nil, List.nil_append, List.filterMap_nil]
    rfl
  · have hw1 : Py.walk loopClosureDefaultExample =
        loopClosureDefaultExample ::
          Py.walk (.For (.Name "i" .store 1)
            (.Call (.Name "range" .load 1) [.Constant (.intC 10) 1] [] 1)
            [.ExprStmt (.Call (.Attribute (.Name "funcs" .load 1) "append" 1)
              [.Lambda (.mk [.mk "i" none] none [] [] none [.Name "i" .load 1])
                (.Name "i" .load 1) 1] [] 1) 1] [] 1) := by
      rw [loopClosureDefaultExample, Py.walk_eq]
      simp only [Py.children, List.flatMap_cons, List.flatMap_nil, List.append_nil]
    unfold findLoopClosures
    rw [hw1, loopClosureDefaultExample_for_walk]
    simp only [List.flatMap_cons, List.flatMap_nil, extractTargetNames,
      loopClosureDefaultExample_for_walk, List.tail_cons, List.filterMap_cons,
      Py.isClosure, Bool.false_and, Bool.true_and, if_false,
      loopClosureDefaultExample_lambda_uses, if_true,
      Py.lineno, List.append_nil, List.nil_append, List.filterMap_nil]
    rfl

/-- C6 witness: the general flagging direction applied to the concrete
unsafe-loop example. -/
theorem c6_loop_variable_closures_witness :
    (1 : Nat) ∈ findLoopClosures loopClosureExample := by
  refine c6_loop_variable_closures.1 loopClosureExample (.Name "i" .store 1)
    (.Call (.Name "range" .load 1) [.Constant (.intC 10) 1] [] 1)
    [.ExprStmt (.Call (.Attribute (.Name "funcs" .load 1) "append" 1)
      [.Lambda (.mk [] none [] [] none []) (.Name "i" .load 1) 1] [] 1) 1] [] 1
    (.ExprStmt (.Call (.Attribute (.Name "funcs" .load 1) "append" 1)
      [.Lambda (.mk [] none [] [] none []) (.Name "i" .load 1) 1] [] 1) 1)
    (.Lambda (.mk [] none [] [] none []) (.Name "i" .load 1) 1)
    ?_ (List.mem_cons_self _ _) ?_ rfl ?_
  · rw [loopClosureExample, Py.walk_eq]
    exact List.mem_cons_of_mem _ (by
      simp only [Py.children, List.flatMap_cons, List.flatMap_nil, List.append_nil]
      exact Py.self_mem_walk _)
  · rw [Py.walk_eq]
    refine List.mem_cons_of_mem _ (List.mem_flatMap.mpr ⟨.Call (.Attribute
      (.Name "funcs" .load 1) "append" 1)
      [.Lambda (.mk [] none [] [] none []) (.Name "i" .load 1) 1] [] 1,
      by simp [Py.children], ?_⟩)
    rw [Py.walk_eq]
    refine List.mem_cons_of_mem _ (List.mem_flatMap.mpr
      ⟨.Lambda (.mk [] none [] [] none []) (.Name "i" .load 1) 1,
        by simp [Py.children, PyKeyword.value], Py.self_mem_walk _⟩)
  · have h : extractTargetNames (.Name "i" .store 1) = ["i"] := by
      simp [extractTargetNames]
    rw [h]
    exact loopClosureExample_lambda_uses

/-- The max-return-statements metric as the specification words it: for
each function, the `return` statements reachable by tree-walk within the
function without entering nested function definitions (the scope-bounded
walk `_walk_skip_functions`); maximum across functions.  This is the
claim-side definition, to be compared with `maxReturnStatements` from the
source. -/
def specMaxReturnsExcludingNested (tree : Py) : Nat :=
  (tree.walk.filter Py.isFuncDef).foldl
    (fun acc f => max acc (f.walkSkipFunctions.countP Py.isReturn)) 0

/-- The number of `Return` nodes in a subtree, by structural recursion —
independent of the walk enumeration. -/
def returnSubtreeCount (n : Py) : Nat :=
  (if n.isReturn then 1 else 0) +
    (n.children.attach.map fun c => returnSubtreeCount c.1).sum
termination_by sizeOf n
decreasing_by all_goals exact Py.sizeOf_mem_children c.2

/-- Unfolding equation for `returnSubtreeCount` without `attach`. -/
lemma returnSubtreeCount_eq (n : Py) :
    returnSubtreeCount n =
      (if n.isReturn then 1 else 0) + (n.children.map returnSubtreeCount).sum := by
  rw [returnSubtreeCount]
  simp

/-- The max-return-statements metric with nested function definitions
included, stated through the structural count. -/
def specMaxReturnsIncludingNested (tree : Py) : Nat :=
  (tree.walk.filter Py.isFuncDef).foldl
    (fun acc f => max acc (returnSubtreeCount f)) 0

/-- Counting over a flat-mapped list sums the per-element counts. -/
lemma countP_flatMap {α β : Type} (p : β → Bool) (l : List α) (f : α → List β) :
    (l.flatMap f).countP p = (l.map fun a => (f a).countP p).sum := by
  induction l with
  | nil => simp
  | cons a rest ih => simp [List.countP_append, ih]

/-- A full-subtree walk counts exactly the structural number of `Return`
nodes. -/
lemma countP_walk_eq_returnSubtreeCount (n : Py) :
    n.walk.countP Py.isReturn = returnSubtreeCount n := by
  have key : ∀ k (m : Py), sizeOf m < k →
      m.walk.countP Py.isReturn = returnSubtreeCount m := by
    intro k
    induction k with
    | zero => intro m hm; exact absurd hm (Nat.not_lt_zero _)
    | succ k ih =>
        intro m hm
        rw [Py.walk_eq, returnSubtreeCount_eq, List.countP_cons, countP_flatMap]
        have hmap : (m.children.map fun c => c.walk.countP Py.isReturn) =
            m.children.map returnSubtreeCount := by
          apply List.map_congr_left
          intro c hc
          exact ih c (Nat.lt_of_lt_of_le (Py.sizeOf_mem_children hc)
            (Nat.le_of_lt_succ hm))
        rw [hmap]
        omega
  exact key (sizeOf n + 1) n (Nat.lt_succ_self _)

set_option maxRecDepth 10000 in
/-- C4 counterexample: for `def f(): def g(): return 1; return 2` (a
function with one nested function), the metric computed by the code is 2 —
`ast.walk` descends into the nested `def` — while the claim's
nested-definition-excluding count is 1. -/
theorem c4_counterexample :
    maxReturnStatements (.Module [.FunctionDef "f" (.mk [] none [] [] none [])
        [.FunctionDef "g" (.mk [] none [] [] none [])
          [.Return (some (.Constant (.intC 1) 3)) 3] [] none 2 3,
         .Return (some (.Constant (.intC 2) 4)) 4] [] none 1 4]) = 2 ∧
    specMaxReturnsExcludingNested (.Module [.FunctionDef "f" (.mk [] none [] [] none [])
        [.FunctionDef "g" (.mk [] none [] [] none [])
          [.Return (some (.Constant (.intC 1) 3)) 3] [] none 2 3,
         .Return (some (.Constant (.intC 2) 4)) 4] [] none 1 4]) = 1 := by
  have hwg : Py.walk (.FunctionDef "g" (.mk [] none [] [] none [])
      [.Return (some (.Constant (.intC 1) 3)) 3] [] none 2 3) =
      [.FunctionDef "g" (.mk [] none [] [] none [])
        [.Return (some (.Constant (.intC 1) 3)) 3] [] none 2 3,
       .Return (some (.Constant (.intC 1) 3)) 3,
       .Constant (.intC 1) 3] := by
    simp only [Py.walk_eq, Py.children, PyArguments.childExprs,
      PyArguments.args, PyArguments.vararg, PyArguments.kwonlyargs,
      PyArguments.kwDefaults, PyArguments.kwarg, PyArguments.defaults, PyArg.annot,
      List.flatMap_cons, List.flatMap_nil, List.filterMap_cons, List.filterMap_nil,
      List.append_nil, List.nil_append, List.cons_append, Option.toList_none,
      Option.toList_some, Option.none_bind, Option.some_bind]
  have hwf : Py.walk (.FunctionDef "f" (.mk [] none [] [] none [])
      [.FunctionDef "g" (.mk [] none [] [] none [])
        [.Return (some (.Constant (.intC 1) 3)) 3] [] none 2 3,
       .Return (some (.Constant (.intC 2) 4)) 4] [] none 1 4) =
      [.FunctionDef "f" (.mk [] none [] [] none [])
        [.FunctionDef "g" (.mk [] none [] [] none [])
          [.Return (some (.Constant (.intC 1) 3)) 3] [] none 2 3,
         .Return (some (.Constant (.intC 2) 4)) 4] [] none 1 4,
       .FunctionDef "g" (.mk [] none [] [] none [])
         [.Return (some (.Constant (.intC 1) 3)) 3] [] none 2 3,
       .Return (some (.Constant (.intC 1) 3)) 3,
       .Constant (.intC 1) 3,
       .Return (some (.Constant (.intC 2) 4)) 4,
       .Constant (.intC 2) 4] := by
    simp only [Py.walk_eq, Py.children, PyArguments.childExprs,
      PyArguments.args, PyArguments.vararg, PyArguments.kwonlyargs,
      PyArguments.kwDefaults, PyArguments.kwarg, PyArguments.defaults, PyArg.annot,
      List.flatMap_cons, List.flatMap_nil, List.filterMap_cons, List.filterMap_nil,
      List.append_nil, List.nil_append, List.cons_append, Option.toList_none,
      Option.toList_some, Option.none_bind, Option.some_bind]
  have hwt : Py.walk (.Module [.FunctionDef "f" (.mk [] none [] [] none [])
      [.FunctionDef "g" (.mk [] none [] [] none [])
        [.Return (some (.Constant (.intC 1) 3)) 3] [] none 2 3,
       .Return (some (.Constant (.intC 2) 4)) 4] [] none 1 4]) =
      .Module [.FunctionDef "f" (.mk [] none [] [] none [])
        [.FunctionDef "g" (.mk [] none [] [] none [])
          [.Return (some (.Constant (.intC 1) 3)) 3] [] none 2 3,
         .Return (some (.Constant (.intC 2) 4)) 4] [] none 1 4] ::
      Py.walk (.FunctionDef "f" (.mk [] none [] [] none [])
        [.FunctionDef "g" (.mk [] none [] [] none [])
          [.Return (some (.Constant (.intC 1) 3)) 3] [] none 2 3,
         .Return (some (.Constant (.intC 2) 4)) 4] [] none 1 4) := by
    rw [Py.walk_eq]
    simp only [Py.children, List.flatMap_cons, List.flatMap_nil, List.append_nil]
  have hcA : Py.walkSkipFunctions (.Constant (.intC 1) 3) = [.Constant (.intC 1) 3] := by
    rw [Py.walkSkipFunctions_eq]; rfl
  have hcB : Py.walkSkipFunctions (.Constant (.intC 2) 4) = [.Constant (.intC 2) 4] := by
    rw [Py.walkSkipFunctions_eq]; rfl
  have hrA : Py.walkSkipFunctions (.Return (some (.Constant (.intC 1) 3)) 3) =
      [.Return (some (.Constant (.intC 1) 3)) 3, .Constant (.intC 1) 3] := by
    rw [Py.walkSkipFunctions_eq]
    simp only [Py.children, Py.isFuncDef, hcA, Option.toList_some,
      List.flatMap_cons, List.flatMap_nil, List.append_nil, List.cons_append,
      List.nil_append, Bool.false_eq_true, if_false]
  have hrB : Py.walkSkipFunctions (.Return (some (.Constant (.intC 2) 4)) 4) =
      [.Return (some (.Constant (.intC 2) 4)) 4, .Constant (.intC 2) 4] := by
    rw [Py.walkSkipFunctions_eq]
    simp only [Py.children, Py.isFuncDef, hcB, Option.toList_some,
      List.flatMap_cons, List.flatMap_nil, List.append_nil, List.cons_append,
      List.nil_append, Bool.false_eq_true, if_false]
  have hsg : Py.walkSkipFunctions (.FunctionDef "g" (.mk [] none [] [] none [])
      [.Return (some (.Constant (.intC 1) 3)) 3] [] none 2 3) =
      [.FunctionDef "g" (.mk [] none [] [] none [])
        [.Return (some (.Constant (.intC 1) 3)) 3] [] none 2 3,
       .Return (some (.Constant (.intC 1) 3)) 3,
       .Constant (.intC 1) 3] := by
    rw [Py.walkSkipFunctions_eq]
    simp only [Py.children, PyArguments.childExprs, PyArguments.args,
      PyArguments.vararg, PyArguments.kwonlyargs, PyArguments.kwDefaults,
      PyArguments.kwarg, PyArguments.defaults, PyArg.annot, Py.isFuncDef, hrA,
      List.flatMap_cons, List.flatMap_nil, List.filterMap_cons, List.filterMap_nil,
      List.append_nil, List.nil_append, List.cons_append, Option.toList_none,
      Option.toList_some, Option.none_bind, Option.some_bind,
      Bool.false_eq_true, if_false]
  have hsf : Py.walkSkipFunctions (.FunctionDef "f" (.mk [] none [] [] none [])
      [.FunctionDef "g" (.mk [] none [] [] none [])
        [.Return (some (.Constant (.intC 1) 3)) 3] [] none 2 3,
       .Return (some (.Constant (.intC 2) 4)) 4] [] none 1 4) =
      [.FunctionDef "f" (.mk [] none [] [] none [])
        [.FunctionDef "g" (.mk [] none [] [] none [])
          [.Return (some (.Constant (.intC 1) 3)) 3] [] none 2 3,
         .Return (some (.Constant (.intC 2) 4)) 4] [] none 1 4,
       .Return (some (.Constant (.intC 2) 4)) 4,
       .Constant (.intC 2) 4] := by
    rw [Py.walkSkipFunctions_eq]
    simp only [Py.children, PyArguments.childExprs, PyArguments.args,
      PyArguments.vararg, PyArguments.kwonlyargs, PyArguments.kwDefaults,
      PyArguments.kwarg, PyArguments.defaults, PyArg.annot, Py.isFuncDef, hrB,
      List.flatMap_cons, List.flatMap_nil, List.filterMap_cons, List.filterMap_nil,
      List.append_nil, List.nil_append, List.cons_append, Option.toList_none,
      Option.toList_some, Option.none_bind, Option.some_bind,
      Bool.false_eq_true, if_false, if_true]
  constructor
  · unfold maxReturnStatements
    rw [hwt, hwf]
    simp only [List.filter_cons, List.filter_nil, Py.isFuncDef, hwf, hwg,
      if_true, if_false, Bool.false_eq_true, ite_false, ite_true,
      List.foldl_cons, List.foldl_nil]
    rfl
  · unfold specMaxReturnsExcludingNested
    rw [hwt, hwf]
    simp only [List.filter_cons, List.filter_nil, Py.isFuncDef, hsf, hsg,
      if_true, if_false, Bool.false_eq_true, ite_false, ite_true,
      List.foldl_cons, List.foldl_nil]
    rfl

/-- C4 amended: the max-return-statements metric is the maximum over all
function definitions of the number of `return` statements in the function's
full subtree — including nested blocks and including statements inside
nested function definitions (`ast.walk` does not stop at nested `def`s). -/
theorem c4_max_returns_amended (tree : Py) :
    maxReturnStatements tree = specMaxReturnsIncludingNested tree := by
  unfold maxReturnStatements specMaxReturnsIncludingNested
  congr 1
  funext acc f
  rw [countP_walk_eq_returnSubtreeCount]

end AgenticTDD
